import Mathlib

/-!
Verification development for the 3Space-Education model viewer
(src/index.tsx).  The TypeScript source converts a structured JSON
description of a faceted solid or a molecule into a three.js scene of
pickable primitives, manages a single-entity highlight set, restores
stored selection references, and draws angle overlays.

The shallow embedding below translates the relevant functions of the
source into Lean.  JavaScript numbers are modelled exactly: finite
doubles as rationals (the scene builders and selection logic), and the
angle / bond-offset geometry, which normalizes vectors and takes
arccosines, over the reals.  Dynamically-typed JSON slots that the code
explicitly checks (missing arrays, wrong-length index lists, non-finite
coordinates) are modelled with Option and with an explicit
finite/invalid coordinate type.
-/

/-- A 3-component vector with exact rational coordinates, standing in for a
three.js Vector3 that holds finite double values. -/
structure Vec3Q where
  x : ℚ
  y : ℚ
  z : ℚ
deriving DecidableEq, Repr

/-- Scalar multiplication of a rational vector (three.js multiplyScalar). -/
def Vec3Q.scale (c : ℚ) (v : Vec3Q) : Vec3Q :=
  ⟨c * v.x, c * v.y, c * v.z⟩

/-- One coordinate slot of a raw JSON vertex.  The source accepts a slot
only when it is a number and isFinite; a non-number slot, NaN and
±Infinity all fail that test identically, so they are collapsed into the
single constructor invalid. -/
inductive JCoord
  | fin (q : ℚ)
  | invalid
deriving DecidableEq, Repr

/-- Whether a coordinate slot passes the source's
(typeof coord === 'number' && isFinite(coord)) test. -/
def JCoord.isFiniteNum : JCoord → Bool
  | .fin _ => true
  | .invalid => false

/-- Numeric value of a coordinate slot (only consulted for finite slots). -/
def JCoord.val : JCoord → ℚ
  | .fin q => q
  | .invalid => 0

/-- A raw entry of the vertices array: either not an array at all
(undefined, null, a number, ...) or an array of coordinate slots. -/
inductive JVertex
  | notArray
  | arr (coords : List JCoord)
deriving DecidableEq, Repr

/-- Details object of a face group (required by the JSON schema). -/
structure FaceDetails where
  surfaceArea : String
  perimeter : String
deriving DecidableEq, Repr

/-- A raw triangle object.  indices = none models a missing or non-array
indices slot; integer entries cover out-of-range and negative indices
(a fractional index would fail the vertex lookup exactly like an
out-of-range one, so Int lookups model it). -/
structure JTriangle where
  indices : Option (List Int)
deriving DecidableEq, Repr

/-- A raw face-group object; triangles = none models a missing or
non-array triangles slot (the group is skipped by the builder). -/
structure JFaceGroup where
  details : FaceDetails
  triangles : Option (List JTriangle)
deriving DecidableEq, Repr

/-- A dimension label of the solid input.  The builder only uses labels
whose text is truthy and whose position is an array; position is
modelled as the 3 components read by Vector3.fromArray. -/
structure JLabel where
  text : String
  position : Vec3Q
deriving DecidableEq, Repr

/-- Raw parsed JSON for the geometry (faceted solid) mode.  A none field
models a missing or non-array top-level slot. -/
structure GeomData where
  vertices : Option (List JVertex)
  faces : Option (List JFaceGroup)
  labels : Option (List JLabel)
deriving DecidableEq, Repr

/-- JavaScript array indexing allVertices[index]: undefined (none) for a
negative or out-of-range index. -/
def vertexAt (vs : List JVertex) (i : Int) : Option JVertex :=
  if i < 0 then none else vs[i.toNat]?

/-- The source's per-vertex validity test:
(!v || !Array.isArray(v) || v.length !== 3 || v.some(coord => typeof
coord !== 'number' || !isFinite(coord))). -/
def validVertex : Option JVertex → Bool
  | some (.arr cs) => cs.length == 3 && cs.all JCoord.isFiniteNum
  | _ => false

/-- Coordinates of a vertex that passed validVertex. -/
def vertexVec : Option JVertex → Vec3Q
  | some (.arr (a :: b :: c :: _)) => ⟨a.val, b.val, c.val⟩
  | _ => ⟨0, 0, 0⟩

/-- Resolve one triangle of a face group, mirroring buildGeometryModel's
per-triangle checks (indices an array of exactly 3 entries, each
resolving to a valid 3-slot finite vertex); none models the
console.warn-and-skip path. -/
def resolveTriangle (vs : List JVertex) (t : JTriangle) : Option (Vec3Q × Vec3Q × Vec3Q) :=
  match t.indices with
  | some [i0, i1, i2] =>
      if validVertex (vertexAt vs i0) && validVertex (vertexAt vs i1) &&
         validVertex (vertexAt vs i2) then
        some (vertexVec (vertexAt vs i0), vertexVec (vertexAt vs i1), vertexVec (vertexAt vs i2))
      else
        none
  | _ => none

/-- One pickable triangle mesh produced by buildGeometryModel, carrying
the userData written at creation (faceId, the group's details) and its
three vertex positions. -/
structure FaceMesh where
  faceId : Nat
  details : FaceDetails
  v0 : Vec3Q
  v1 : Vec3Q
  v2 : Vec3Q
deriving DecidableEq, Repr

/-- Meshes produced from one face group at sequence index faceIndex. -/
def faceGroupMeshes (vs : List JVertex) (faceIndex : Nat) (fg : JFaceGroup) : List FaceMesh :=
  match fg.triangles with
  | none => []
  | some ts =>
      ts.filterMap fun t =>
        (resolveTriangle vs t).map fun v =>
          { faceId := faceIndex, details := fg.details, v0 := v.1, v1 := v.2.1, v2 := v.2.2 }

/-- Meshes of data.faces.forEach((faceGroup, faceIndex) => ...), with n
the sequence index of the first remaining group. -/
def geomMeshesFrom (vs : List JVertex) : Nat → List JFaceGroup → List FaceMesh
  | _, [] => []
  | n, fg :: rest => faceGroupMeshes vs n fg ++ geomMeshesFrom vs (n + 1) rest

/-- Count of triangles of one face group that survive resolveTriangle. -/
def countValidTriangles (vs : List JVertex) (fg : JFaceGroup) : Nat :=
  (fg.triangles.getD []).countP fun t => (resolveTriangle vs t).isSome

/-- Total count of valid triangles across all face groups. -/
def totalValidTriangles (vs : List JVertex) (fs : List JFaceGroup) : Nat :=
  (fs.map (countValidTriangles vs)).sum

/-- A label sprite: world position and the three components of its scale
vector. -/
structure SpriteData where
  pos : Vec3Q
  scaleX : ℚ
  scaleY : ℚ
  scaleZ : ℚ
deriving DecidableEq, Repr

/-- Font size used by createLabelSprite. -/
def LABEL_FONT_SIZE : ℚ := 90

/-- Sprites of the solid's dimension labels.  createLabelSprite draws
text on a canvas and sets scale to (textWidth / fontSize, 1, 1); the
canvas text metrics are abstracted as the parameter meas (width of the
text at the 90px label font).  The 2d-canvas-missing null path of
createLabelSprite cannot occur in a browser and is not modelled.  A
label is added only when labelData.text is truthy (a non-empty string)
and its position is an array. -/
def geomSprites (meas : String → ℚ) (labels : List JLabel) : List SpriteData :=
  labels.filterMap fun l =>
    if l.text ≠ "" then
      some { pos := l.position, scaleX := meas l.text / LABEL_FONT_SIZE, scaleY := 1, scaleZ := 1 }
    else
      none

/-- Axis-aligned bounding box (three.js Box3) with exact bounds. -/
structure BoxQ where
  minX : ℚ
  maxX : ℚ
  minY : ℚ
  maxY : ℚ
  minZ : ℚ
  maxZ : ℚ
deriving DecidableEq, Repr

/-- Expand a box by one point (Box3.expandByPoint). -/
def BoxQ.expand (b : BoxQ) (p : Vec3Q) : BoxQ :=
  ⟨min b.minX p.x, max b.maxX p.x, min b.minY p.y, max b.maxY p.y, min b.minZ p.z, max b.maxZ p.z⟩

/-- Box of a list of points; none for the empty list (an empty Box3 has
min = +∞, max = -∞, so its size never exceeds the 0.001 threshold used
below, which the none case models). -/
def boxOfPoints (pts : List Vec3Q) : Option BoxQ :=
  match pts with
  | [] => none
  | p :: rest => some (rest.foldl BoxQ.expand ⟨p.x, p.x, p.y, p.y, p.z, p.z⟩)

/-- Box3.getSize. -/
def boxSize (b : BoxQ) : Vec3Q :=
  ⟨b.maxX - b.minX, b.maxY - b.minY, b.maxZ - b.minZ⟩

/-- Math.max(size.x, size.y, size.z). -/
def boxMaxDim (b : BoxQ) : ℚ :=
  max (max (boxSize b).x (boxSize b).y) (boxSize b).z

/-- Squared length of the box diagonal. -/
def boxDiagSq (b : BoxQ) : ℚ :=
  (boxSize b).x ^ 2 + (boxSize b).y ^ 2 + (boxSize b).z ^ 2

/-- World-space corners of a sprite's textured quad, as traversed by
Box3.setFromObject: the sprite plane spans (±0.5, ±0.5, 0) in local
coordinates before the sprite's scale and position are applied. -/
def spriteCorners (s : SpriteData) : List Vec3Q :=
  [⟨s.pos.x - s.scaleX / 2, s.pos.y - s.scaleY / 2, s.pos.z⟩,
   ⟨s.pos.x + s.scaleX / 2, s.pos.y - s.scaleY / 2, s.pos.z⟩,
   ⟨s.pos.x + s.scaleX / 2, s.pos.y + s.scaleY / 2, s.pos.z⟩,
   ⟨s.pos.x - s.scaleX / 2, s.pos.y + s.scaleY / 2, s.pos.z⟩]

/-- Points contributed to the model box by the triangle meshes. -/
def meshPoints (ms : List FaceMesh) : List Vec3Q :=
  ms.flatMap fun m => [m.v0, m.v1, m.v2]

/-- sprite.scale.multiplyScalar(f). -/
def scaleSprite (f : ℚ) (s : SpriteData) : SpriteData :=
  { s with scaleX := s.scaleX * f, scaleY := s.scaleY * f, scaleZ := s.scaleZ * f }

/-- Label-scale divisor of the solid builder (maxDim / 15, "Tuned for
geometry"). -/
def GEOM_LABEL_DIVISOR : ℚ := 15

/-- Label-scale divisor of the molecule builder (maxDim / 30, "Tuned for
chemistry"). -/
def CHEM_LABEL_DIVISOR : ℚ := 30

/-- Largest bounding-box dimension of the solid model (meshes plus label
sprites, measured before the label rescale, exactly as
Box3.setFromObject(group) sees the group). -/
def geomMaxDimOf (ms : List FaceMesh) (sprites : List SpriteData) : Option ℚ :=
  (boxOfPoints (meshPoints ms ++ sprites.flatMap spriteCorners)).map boxMaxDim

/-- Factor by which buildGeometryModel multiplies every label sprite's
scale (1 when the box is empty or its largest dimension is ≤ 0.001,
modelling the skipped branch). -/
def geomLabelFactor (ms : List FaceMesh) (sprites : List SpriteData) : ℚ :=
  match geomMaxDimOf ms sprites with
  | some md => if md > 1 / 1000 then md / GEOM_LABEL_DIVISOR else 1
  | none => 1

/-- Build errors thrown by the two builders.  schemaError carries the
top-level key named by the thrown message ("vertices", "faces",
"atoms"); emptyModelError is "Could not create any valid geometric
shapes from the provided JSON."; invalidModelError is
handleGenerateClick's "Generated JSON did not produce a valid 3D
model." check. -/
inductive BuildError
  | schemaError (whichKey : String)
  | emptyModelError
  | invalidModelError
deriving DecidableEq, Repr

/-- The solid scene produced by buildGeometryModel: its pickable triangle
meshes (direct children, in creation order) and its label sprites
(after the final label rescale). -/
structure GeomModel where
  meshes : List FaceMesh
  sprites : List SpriteData
deriving DecidableEq, Repr

/-- Shallow embedding of buildGeometryModel (src/index.tsx lines
811-896): schema checks on vertices and faces, per-triangle validation
with skip-on-defect, the EmptyModelError check (which runs before any
label is added, so it sees exactly the triangle meshes), label sprite
creation, and the final bounding-box-driven label rescale. -/
def buildGeometryModel (meas : String → ℚ) (d : GeomData) : Except BuildError GeomModel :=
  match d.vertices with
  | none => .error (.schemaError "vertices")
  | some vs =>
    if vs.isEmpty then .error (.schemaError "vertices")
    else
      match d.faces with
      | none => .error (.schemaError "faces")
      | some fs =>
        if fs.isEmpty then .error (.schemaError "faces")
        else
          let ms := geomMeshesFrom vs 0 fs
          if ms.isEmpty then .error .emptyModelError
          else
            let raw := geomSprites meas (d.labels.getD [])
            .ok { meshes := ms, sprites := raw.map (scaleSprite (geomLabelFactor ms raw)) }

/-- Bond-angle entry stored on an atom.  atomsInvolvedIndices = none
models a missing or non-array slot (the overlay code checks
(indices && indices.length === 3)). -/
structure JBondAngle where
  angle : String
  atomsInvolved : List String
  atomsInvolvedIndices : Option (List Int)
deriving DecidableEq, Repr

/-- Raw atom object.  position = none models a missing slot, defaulted
to the origin by (atom.position || [0, 0, 0]); present positions are
modelled as the 3 components Vector3.fromArray reads. -/
structure JAtom where
  element : String
  position : Option Vec3Q
  vseprShape : String
  bondAngles : Option (List JBondAngle)
deriving DecidableEq, Repr

/-- Raw bond object.  The source's end field is a Lean keyword and is
embedded as endIdx. -/
structure JBond where
  type : String
  energy : String
  start : Int
  endIdx : Int
deriving DecidableEq, Repr

/-- Raw parsed JSON for the chemistry mode.  A none field models a
missing or non-array top-level slot. -/
structure ChemData where
  atoms : Option (List JAtom)
  bonds : Option (List JBond)
deriving DecidableEq, Repr

/-- CHEM_MODEL_SCALE = 3.0. -/
def CHEM_MODEL_SCALE : ℚ := 3

/-- userData.details written on an atom's sphere mesh by createAtom. -/
structure AtomDetails where
  element : String
  bondAngles : Option (List JBondAngle)
  vseprShape : String
  atomIndex : Nat
deriving DecidableEq, Repr

/-- userData.details written on a bond group by createBond. -/
structure BondDetails where
  name : String
  type : String
  energy : String
  startAtomIndex : Int
  endAtomIndex : Int
deriving DecidableEq, Repr

/-- ASCII lower-casing at the character-data level, standing in for
JavaScript's toLowerCase on the ASCII strings the source compares
("double", "triple").  (Core's String.toLower is byte-position
recursion, which the kernel cannot evaluate on literals.) -/
def toLowerStr (s : String) : String := String.mk (s.data.map Char.toLower)

/-- ASCII upper-casing at the character-data level, standing in for
JavaScript's toUpperCase on element symbols. -/
def toUpperStr (s : String) : String := String.mk (s.data.map Char.toUpper)

/-- CPK_COLORS lookup: CPK_COLORS[el] || CPK_COLORS['DEFAULT'], with el
already upper-cased by the caller.  No table entry is 0, so the JS
falsy-fallback coincides with a plain lookup-with-default. -/
def cpkColor (el : String) : Nat :=
  match el with
  | "H" => 0xffffff
  | "C" => 0x808080
  | "N" => 0x0000ff
  | "O" => 0xff0000
  | "F" => 0x00ff00
  | "CL" => 0x00ff00
  | "BR" => 0xa52a2a
  | "I" => 0x800080
  | "P" => 0xffa500
  | "S" => 0xffff00
  | "B" => 0xfa8072
  | _ => 0xffc0cb

/-- ATOM_RADII lookup: ATOM_RADII[el] || ATOM_RADII['DEFAULT'], with el
already upper-cased by the caller; each entry is the table value times
CHEM_MODEL_SCALE, and none is 0. -/
def atomRadiusOf (el : String) : ℚ :=
  match el with
  | "H" => 0.2 * CHEM_MODEL_SCALE
  | "C" => 0.35 * CHEM_MODEL_SCALE
  | "N" => 0.3 * CHEM_MODEL_SCALE
  | "O" => 0.3 * CHEM_MODEL_SCALE
  | "F" => 0.25 * CHEM_MODEL_SCALE
  | "CL" => 0.5 * CHEM_MODEL_SCALE
  | "BR" => 0.55 * CHEM_MODEL_SCALE
  | "I" => 0.65 * CHEM_MODEL_SCALE
  | "P" => 0.5 * CHEM_MODEL_SCALE
  | "S" => 0.5 * CHEM_MODEL_SCALE
  | "B" => 0.4 * CHEM_MODEL_SCALE
  | _ => 0.25 * CHEM_MODEL_SCALE

/-- One atom group produced by createAtom: the sphere mesh (its
userData.details, world position, radius, material color) and the
element-symbol label sprite, recorded before the model-level label
rescale. -/
structure AtomPrim where
  details : AtomDetails
  pos : Vec3Q
  radius : ℚ
  color : Nat
  labelSprite : SpriteData
deriving DecidableEq, Repr

/-- Shallow embedding of createAtom (lines 723-749): element lookup via
toUpperCase, sphere sized and colored by the tables, userData.details
with the construction index, and the label sprite offset above the
sphere (label.position.y += radius + 0.15 * CHEM_MODEL_SCALE) with its
createLabelSprite scale multiplied by radius * 2.5. -/
def createAtom (meas : String → ℚ) (atomData : JAtom) (position : Vec3Q) (index : Nat) : AtomPrim :=
  let el := toUpperStr atomData.element
  let color := cpkColor el
  let radius := atomRadiusOf el
  { details := { element := atomData.element, bondAngles := atomData.bondAngles,
                 vseprShape := atomData.vseprShape, atomIndex := index },
    pos := position,
    radius := radius,
    color := color,
    labelSprite :=
      { pos := ⟨position.x, position.y + (radius + 0.15 * CHEM_MODEL_SCALE), position.z⟩,
        scaleX := meas atomData.element / LABEL_FONT_SIZE * (radius * 2.5),
        scaleY := 1 * (radius * 2.5),
        scaleZ := 1 * (radius * 2.5) } }

/-- Number of cylinders createBond pushes for a bond type string
(bondData.type.toLowerCase(): 'double' gives 2, 'triple' gives 3,
anything else one single cylinder). -/
def bondCylinderCountOf (t : String) : Nat :=
  if toLowerStr t = "double" then 2 else if toLowerStr t = "triple" then 3 else 1

/-- One bond group in the scene: its userData.details, the two resolved
scaled endpoint positions and how many cylinder meshes it owns.  (The
exact cylinder offsets live in createBond below, over the reals.) -/
structure BondPrim where
  details : BondDetails
  startPos : Vec3Q
  endPos : Vec3Q
  cylinderCount : Nat
deriving DecidableEq, Repr

/-- The molecule scene produced by buildChemistryModel: atom groups in
order, bond groups in order, and the scene-level atomPositions
metadata.  Label sprites are recorded at their createAtom size; the
model-level rescale is modelled by chemScaledLabels below. -/
structure ChemModel where
  atoms : List AtomPrim
  bonds : List BondPrim
  atomPositions : List Vec3Q
deriving DecidableEq, Repr

/-- data.atoms.forEach((atom, index) => ...): scale the (defaulted)
position by CHEM_MODEL_SCALE and create the atom group; n is the index
of the first remaining atom. -/
def chemAtomPrimsFrom (meas : String → ℚ) : Nat → List JAtom → List AtomPrim
  | _, [] => []
  | n, a :: rest =>
      createAtom meas a (Vec3Q.scale CHEM_MODEL_SCALE (a.position.getD ⟨0, 0, 0⟩)) n ::
        chemAtomPrimsFrom meas (n + 1) rest

/-- Scaled atom positions pushed into the scene-level atomPositions. -/
def chemAtomPositions (atoms : List JAtom) : List Vec3Q :=
  atoms.map fun a => Vec3Q.scale CHEM_MODEL_SCALE (a.position.getD ⟨0, 0, 0⟩)

/-- data.bonds.forEach(bond => ...): a bond is kept only when both atom
indices are in range (bond.start >= 0 && bond.start < n && bond.end >=
0 && bond.end < n); its name interpolates the two element symbols. -/
def chemBondPrims (atoms : List JAtom) (bonds : List JBond) : List BondPrim :=
  let positions := chemAtomPositions atoms
  bonds.filterMap fun b =>
    if 0 ≤ b.start ∧ b.start < (positions.length : Int) ∧
       0 ≤ b.endIdx ∧ b.endIdx < (positions.length : Int) then
      some { details := { name := ((atoms[b.start.toNat]?).map JAtom.element).getD "" ++ "-" ++
                                   (((atoms[b.endIdx.toNat]?).map JAtom.element).getD ""),
                          type := b.type, energy := b.energy,
                          startAtomIndex := b.start, endAtomIndex := b.endIdx },
             startPos := (positions[b.start.toNat]?).getD ⟨0, 0, 0⟩,
             endPos := (positions[b.endIdx.toNat]?).getD ⟨0, 0, 0⟩,
             cylinderCount := bondCylinderCountOf b.type }
    else
      none

/-- Shallow embedding of buildChemistryModel (lines 899-944): the two
atoms schema checks ('atoms' array not found / cannot be empty), atom
group creation with scaled positions, in-range bond creation, and the
atomPositions metadata.  The final label rescale is modelled separately
(chemScaledLabels below). -/
def buildChemistryModel (meas : String → ℚ) (d : ChemData) : Except BuildError ChemModel :=
  match d.atoms with
  | none => .error (.schemaError "atoms")
  | some atoms =>
    if atoms.isEmpty then .error (.schemaError "atoms")
    else
      .ok { atoms := chemAtomPrimsFrom meas 0 atoms,
            bonds := chemBondPrims atoms (d.bonds.getD []),
            atomPositions := chemAtomPositions atoms }

/-- Box points of a sphere mesh as Box3.setFromObject sees them: the
SphereGeometry(radius, 32, 16) vertex set attains the positions
pos ± radius on each axis (poles and equator samples at multiples of
π/2 are among its vertices), so its box is exactly pos ± radius. -/
def sphereBoxPoints (a : AtomPrim) : List Vec3Q :=
  [⟨a.pos.x - a.radius, a.pos.y, a.pos.z⟩, ⟨a.pos.x + a.radius, a.pos.y, a.pos.z⟩,
   ⟨a.pos.x, a.pos.y - a.radius, a.pos.z⟩, ⟨a.pos.x, a.pos.y + a.radius, a.pos.z⟩,
   ⟨a.pos.x, a.pos.y, a.pos.z - a.radius⟩, ⟨a.pos.x, a.pos.y, a.pos.z + a.radius⟩]

/-- Box points of a bond-free molecule model (atom spheres and their
label sprites).  Bonds are excluded because the box of a tessellated
cylinder under an arbitrary bond-axis rotation has irrational exact
bounds; the label-rescale statement below is therefore made for
bond-free molecules, where this list generates exactly the
Box3.setFromObject box. -/
def chemBoxPointsNoBonds (m : ChemModel) : List Vec3Q :=
  m.atoms.flatMap fun a => sphereBoxPoints a ++ spriteCorners a.labelSprite

/-- Largest bounding-box dimension of a bond-free molecule model. -/
def chemMaxDimNoBonds (m : ChemModel) : Option ℚ :=
  (boxOfPoints (chemBoxPointsNoBonds m)).map boxMaxDim

/-- Factor by which buildChemistryModel multiplies every label sprite's
scale in a bond-free model (maxDim / 30 when maxDim > 0.001, else the
rescale is skipped). -/
def chemLabelFactorNoBonds (m : ChemModel) : ℚ :=
  match chemMaxDimNoBonds m with
  | some md => if md > 1 / 1000 then md / CHEM_LABEL_DIVISOR else 1
  | none => 1

/-- The label sprites of a bond-free molecule model after the
group.traverse rescale at the end of buildChemistryModel. -/
def chemScaledLabels (m : ChemModel) : List SpriteData :=
  m.atoms.map fun a => scaleSprite (chemLabelFactorNoBonds m) a.labelSprite

/-- A 3-component real vector, used for the parts of the source whose
exact values are irrational (vector normalization, arccosine angles):
cylinder offsets of createBond and the angle overlay. -/
structure Vec3R where
  x : ℝ
  y : ℝ
  z : ℝ

noncomputable instance : Add Vec3R := ⟨fun a b => ⟨a.x + b.x, a.y + b.y, a.z + b.z⟩⟩

noncomputable instance : Sub Vec3R := ⟨fun a b => ⟨a.x - b.x, a.y - b.y, a.z - b.z⟩⟩

noncomputable instance : Neg Vec3R := ⟨fun a => ⟨-a.x, -a.y, -a.z⟩⟩

noncomputable instance : SMul ℝ Vec3R := ⟨fun c a => ⟨c * a.x, c * a.y, c * a.z⟩⟩

noncomputable instance : Zero Vec3R := ⟨⟨0, 0, 0⟩⟩

/-- Vector3.dot. -/
noncomputable def rdot (a b : Vec3R) : ℝ := a.x * b.x + a.y * b.y + a.z * b.z

/-- Vector3.cross. -/
noncomputable def rcross (a b : Vec3R) : Vec3R :=
  ⟨a.y * b.z - a.z * b.y, a.z * b.x - a.x * b.z, a.x * b.y - a.y * b.x⟩

/-- Vector3.lengthSq. -/
noncomputable def rlengthSq (a : Vec3R) : ℝ := a.x * a.x + a.y * a.y + a.z * a.z

/-- Vector3.length. -/
noncomputable def rlen (a : Vec3R) : ℝ := Real.sqrt (rlengthSq a)

/-- Vector3.normalize = divideScalar(length() || 1): the zero vector
(whose length, 0, is falsy) is divided by 1 and stays zero. -/
noncomputable def rnormalize (a : Vec3R) : Vec3R :=
  (1 / (if rlen a = 0 then 1 else rlen a)) • a

/-- CHEM_MODEL_SCALE as a real, for the real-valued geometry. -/
noncomputable def CHEM_MODEL_SCALE_R : ℝ := 3

/-- One cylinder mesh of a bond group: its position inside its aligned
cylinder group (the lateral offset from the bond axis), the group's
world position (the bond midpoint), the bond-axis direction the group
is rotated onto, and the cylinder's radius and height. -/
structure CylinderPrim where
  offset : Vec3R
  groupPos : Vec3R
  axisDir : Vec3R
  radius : ℝ
  height : ℝ

/-- A bond group as built by createBond: its userData.details and its
cylinder meshes in creation order. -/
structure RBondGroup where
  details : BondDetails
  cylinders : List CylinderPrim

/-- The perpendicular seed vector from which createBond derives the
lateral offset direction of a multi-cylinder bond: the cross product of
the bond path with the Y axis, replaced by the cross product with the X
axis when its length is below 0.01 (the bond is parallel, or nearly
parallel, to Y). -/
noncomputable def bondOffsetSeed (startPos endPos : Vec3R) : Vec3R :=
  let path := endPos - startPos
  let od := rcross path ⟨0, 1, 0⟩
  if rlen od < 0.01 then rcross path ⟨1, 0, 0⟩ else od

/-- Shallow embedding of createBond (lines 751-807): the bond group's
userData.details, the cylinder count decided by the lower-cased type
string, and the symmetric lateral offsets (normalize the seed, scale by
bondRadius * 1.5, add to cylinder 0 and subtract from cylinder 1 of a
double bond, add to cylinder 1 and subtract from cylinder 2 of a triple
bond).  Every cylinder group is positioned at the bond midpoint and
rotated from the Y axis onto the normalized path. -/
noncomputable def createBond (bondData : JBond) (startPos endPos : Vec3R) (bondName : String) : RBondGroup :=
  let path := endPos - startPos
  let bondRadius : ℝ := 0.05 * CHEM_MODEL_SCALE_R
  let n := bondCylinderCountOf bondData.type
  let offsetDirection : Vec3R :=
    if 1 < n then (bondRadius * 1.5) • rnormalize (bondOffsetSeed startPos endPos)
    else 0
  let offsets : List Vec3R :=
    if n = 2 then [offsetDirection, -offsetDirection]
    else if n = 3 then [0, offsetDirection, -offsetDirection]
    else [0]
  { details := { name := bondName, type := bondData.type, energy := bondData.energy,
                 startAtomIndex := bondData.start, endAtomIndex := bondData.endIdx },
    cylinders := offsets.map fun off =>
      { offset := off,
        groupPos := startPos + (0.5 : ℝ) • path,
        axisDir := rnormalize path,
        radius := bondRadius,
        height := rlen path } }

/-- Vector3.angleTo: acos of the clamped normalized dot product, with
the three.js guard that a zero denominator (either vector has length
zero) returns π/2. -/
noncomputable def angleTo (a b : Vec3R) : ℝ :=
  if Real.sqrt (rlengthSq a * rlengthSq b) = 0 then Real.pi / 2
  else Real.arccos (max (-1) (min 1 (rdot a b / Real.sqrt (rlengthSq a * rlengthSq b))))

/-- The plane normal computed by drawAngleVisualization: v1 × v2
normalized, with the 180-degree fallback (when the cross product's
squared length is below 0.0001, cross v1 with a world axis not parallel
to it: X, or Y when v1 is within 0.999 of parallel to X). -/
noncomputable def anglePlaneNormal (v1 v2 : Vec3R) : Vec3R :=
  let n := rcross v1 v2
  if rlengthSq n < 0.0001 then
    let nonParallel : Vec3R :=
      if |rdot (rnormalize v1) ⟨1, 0, 0⟩| > 0.999 then ⟨0, 1, 0⟩ else ⟨1, 0, 0⟩
    rnormalize (rcross v1 nonParallel)
  else rnormalize n

/-- The overlay added to angleVisualizationGroup by
drawAngleVisualization: the oriented arc (spanning [0, arcSpan] in the
basis (xAxis, yAxis, zAxis) at center) and the label sprite. -/
structure AngleOverlay where
  center : Vec3R
  xAxis : Vec3R
  yAxis : Vec3R
  zAxis : Vec3R
  arcRadius : ℝ
  arcSpan : ℝ
  labelPos : Vec3R
  labelText : String

/-- Shallow embedding of drawAngleVisualization (lines 312-373): none
models the early return (angle < 0.01, "Don't draw for 0 degrees");
otherwise an arc of radius 0.4 * CHEM_MODEL_SCALE spanning [0, angle]
oriented by the orthonormal basis (v1 normalized, normal × xAxis
normalized, normal), and a label positioned from pCenter along the
normalized bisector of the two unit rays — replaced by the basis Y axis
when the bisector's squared length is below 0.0001 — at distance
(arcRadius + 0.15) * 1.5. -/
noncomputable def drawAngleVisualization (p1 pCenter p2 : Vec3R) (angleText : String) : Option AngleOverlay :=
  let v1 := p1 - pCenter
  let v2 := p2 - pCenter
  let angle := angleTo v1 v2
  let normal := anglePlaneNormal v1 v2
  if angle < 0.01 then none
  else
    let arcRadius : ℝ := 0.4 * CHEM_MODEL_SCALE_R
    let xAxis := rnormalize v1
    let yAxis := rnormalize (rcross normal xAxis)
    let bisector0 := rnormalize v1 + rnormalize v2
    let bisector := rnormalize (if rlengthSq bisector0 < 0.0001 then yAxis else bisector0)
    some { center := pCenter,
           xAxis := xAxis,
           yAxis := yAxis,
           zAxis := normal,
           arcRadius := arcRadius,
           arcSpan := angle,
           labelPos := pCenter + ((arcRadius + 0.15) * 1.5) • bisector,
           labelText := angleText }

/-- Stable identity of a pickable mesh in the built scene: the k-th
triangle mesh of the solid model, the sphere of the i-th atom group, or
the c-th cylinder mesh of the b-th bond group.  (Label sprites are not
THREE.Mesh instances and never enter the highlight set.) -/
inductive MeshId
  | faceMesh (k : Nat)
  | atomSphere (i : Nat)
  | bondCyl (b : Nat) (c : Nat)
deriving DecidableEq, Repr

/-- The active generated scene, in either mode. -/
inductive SceneModel
  | geom (g : GeomModel)
  | chem (c : ChemModel)
deriving DecidableEq, Repr

/-- List indexing paired with the element's position, mirroring a
forEach with index (n is the index of the first element). -/
def withIdx {α : Type} : Nat → List α → List (Nat × α)
  | _, [] => []
  | n, a :: rest => (n, a) :: withIdx (n + 1) rest

/-- All pickable meshes of a scene (the raycaster targets
generatedObject's subtree; meshes are the only pickable primitives the
selection logic reacts to). -/
def sceneMeshIds : SceneModel → List MeshId
  | .geom g => (List.range g.meshes.length).map .faceMesh
  | .chem c =>
      (List.range c.atoms.length).map .atomSphere ++
        (withIdx 0 c.bonds).flatMap fun p => (List.range p.2.cylinderCount).map (.bondCyl p.1)

/-- A stored selection context as written by handleHighlight and read
back by reHighlightSelection: the type tag string, the stable id
(faceId / atomIndex / start-end atom pair) and the copied details
payload. -/
inductive SelectionRef
  | geometryFace (id : Nat) (details : FaceDetails)
  | chemistryAtom (id : Nat) (details : AtomDetails)
  | chemistryBond (startId endId : Int) (details : BondDetails)
deriving DecidableEq, Repr

/-- Shallow embedding of handleHighlight's entity resolution (lines
375-482).  Given the mesh hit by the raycaster it returns the stored
selection context and the primitives to highlight, or none when the hit
selects nothing:

geometry mode — the hit mesh's faceId selects every direct child mesh
with the same faceId;

chemistry mode — from the hit mesh, ownership ancestors are walked
until one carries userData.details.type (a truthy type string): for a
cylinder that is its bond group, provided the bond's type string is
non-empty (every cylinder of the group is highlighted); a sphere has no
such ancestor, and is an atom selection provided its
userData.details.element is truthy (non-empty), highlighting only
itself. -/
def pickResolve (m : SceneModel) (hit : MeshId) : Option (SelectionRef × List MeshId) :=
  match m, hit with
  | .geom g, .faceMesh k =>
      match g.meshes[k]? with
      | none => none
      | some fm =>
          some (.geometryFace fm.faceId fm.details,
                ((withIdx 0 g.meshes).filter fun p => p.2.faceId == fm.faceId).map
                  fun p => MeshId.faceMesh p.1)
  | .chem c, .bondCyl b _ =>
      match c.bonds[b]? with
      | none => none
      | some bp =>
          if bp.details.type ≠ "" then
            some (.chemistryBond bp.details.startAtomIndex bp.details.endAtomIndex bp.details,
                  (List.range bp.cylinderCount).map (MeshId.bondCyl b))
          else none
  | .chem c, .atomSphere i =>
      match c.atoms[i]? with
      | none => none
      | some ap =>
          if ap.details.element ≠ "" then
            some (.chemistryAtom ap.details.atomIndex ap.details, [MeshId.atomSphere i])
          else none
  | _, _ => none

/-- Shallow embedding of reHighlightSelection's re-scan (lines 536-613),
which matches primitives of the current scene against the stored
reference purely by stable id, never by object identity:

geometry_face — every direct child mesh whose userData.faceId equals
the stored id (in a chemistry scene no direct child is a mesh, so the
result is empty);

chemistry_atom — every mesh in the subtree whose
userData.details.atomIndex equals the stored id (only atom spheres
carry that field; solid face meshes carry details without atomIndex, so
in a geometry scene the result is empty);

chemistry_bond — every mesh under every group whose
userData.details.startAtomIndex and .endAtomIndex equal the stored
pair. -/
def resolveRefPrims (m : SceneModel) (r : SelectionRef) : List MeshId :=
  match m, r with
  | .geom g, .geometryFace id _ =>
      ((withIdx 0 g.meshes).filter fun p => p.2.faceId == id).map fun p => MeshId.faceMesh p.1
  | .chem _, .geometryFace _ _ => []
  | .chem c, .chemistryAtom id _ =>
      ((withIdx 0 c.atoms).filter fun p => p.2.details.atomIndex == id).map
        fun p => MeshId.atomSphere p.1
  | .geom _, .chemistryAtom _ _ => []
  | .chem c, .chemistryBond s e _ =>
      ((withIdx 0 c.bonds).filter fun p =>
          p.2.details.startAtomIndex == s && p.2.details.endAtomIndex == e).flatMap
        fun p => (List.range p.2.cylinderCount).map (MeshId.bondCyl p.1)
  | .geom _, .chemistryBond _ _ _ => []

/-- One select operation as triggered by the UI: a raycaster hit on a
mesh, a click that hit nothing (or hit a sprite), or a stored-reference
restore. -/
inductive SelectSource
  | pickHit (id : MeshId)
  | pickMiss
  | restoreRef (r : SelectionRef)

/-- The primitives the operation resolves to highlight. -/
def resolveSourcePrims (m : SceneModel) : SelectSource → List MeshId
  | .pickHit id => ((pickResolve m id).map Prod.snd).getD []
  | .pickMiss => []
  | .restoreRef r => resolveRefPrims m r

/-- Material colors are hex numbers. -/
abbrev Color := Nat

/-- The fixed highlight color 0xffff99 set on every selected mesh. -/
def highlightColorHex : Color := 0xffff99

/-- The mutable visual state the highlight logic operates on: the
current color of every mesh material, and the highlightedObjects array
of (mesh, originalColor) records. -/
structure HighlightState where
  colorOf : MeshId → Color
  highlighted : List (MeshId × Color)

/-- highlightedObjects.forEach(h => h.object.material.color.copy(
h.originalColor)): restore recorded colors in array order. -/
def restoreColors : List (MeshId × Color) → (MeshId → Color) → (MeshId → Color)
  | [], c => c
  | p :: rest, c => restoreColors rest (Function.update c p.1 p.2)

/-- Clearing step shared by onCanvasClick and reHighlightSelection:
restore every recorded color and empty highlightedObjects. -/
def clearHighlights (st : HighlightState) : HighlightState :=
  { colorOf := restoreColors st.highlighted st.colorOf, highlighted := [] }

/-- Highlighting step: for each primitive in order, record its current
color into highlightedObjects and set the highlight color. -/
def applyHighlights : List MeshId → HighlightState → HighlightState
  | [], st => st
  | id :: rest, st =>
      applyHighlights rest
        { colorOf := Function.update st.colorOf id highlightColorHex,
          highlighted := st.highlighted ++ [(id, st.colorOf id)] }

/-- One full select operation (onCanvasClick lines 485-515,
reHighlightSelection lines 536-613): the previous highlight set is
unconditionally restored and emptied, then the resolved primitives are
highlighted. -/
def selectOp (prims : List MeshId) (st : HighlightState) : HighlightState :=
  applyHighlights prims (clearHighlights st)

/-- App mode chosen on the start screen. -/
inductive AppMode
  | geometry
  | chemistry
deriving DecidableEq, Repr

/-- The parsed JSON document a generation produced, by shape.  (The
document is untyped at runtime; a document of the other mode's shape
simply fails the chosen builder's first schema check, which the
mismatching cases model.) -/
inductive InputData
  | geomInput (d : GeomData)
  | chemInput (d : ChemData)
deriving DecidableEq, Repr

/-- The builder dispatch of handleGenerateClick. -/
def buildFor (meas : String → ℚ) : AppMode → InputData → Except BuildError SceneModel
  | .geometry, .geomInput d => (buildGeometryModel meas d).map .geom
  | .geometry, .chemInput _ => .error (.schemaError "vertices")
  | .chemistry, .chemInput d => (buildChemistryModel meas d).map .chem
  | .chemistry, .geomInput _ => .error (.schemaError "atoms")

/-- The scene-ownership state handleGenerateClick manipulates: the
current generatedObject (whose primitives are the only pickable ones). -/
structure ActiveScene where
  generatedObject : Option SceneModel
deriving DecidableEq, Repr

/-- handleGenerateClick's isModelValid check: a group must have at least
one child. -/
def isModelValid : SceneModel → Bool
  | .geom g => g.meshes.length + g.sprites.length > 0
  | .chem c => c.atoms.length + c.bonds.length > 0

/-- Shallow embedding of handleGenerateClick's model replacement (lines
1074-1237).  Before anything is built, the prior generatedObject — if
any — is removed from the scene and the reference nulled (lines
1083-1086).  Only a successful build that passes isModelValid installs
a new model; on any build error the catch block leaves the scene with
no generated model. -/
def handleGenerateModel (meas : String → ℚ) (st : ActiveScene) (mode : AppMode)
    (input : InputData) : ActiveScene × Option BuildError :=
  let afterRemove : ActiveScene := { st with generatedObject := none }
  match buildFor meas mode input with
  | .ok m =>
      if isModelValid m then ({ afterRemove with generatedObject := some m }, none)
      else (afterRemove, some .invalidModelError)
  | .error e => (afterRemove, some e)

/-- The meshes a subsequent click can hit: onCanvasClick returns before
raycasting when generatedObject is null. -/
def pickablePrims (st : ActiveScene) : List MeshId :=
  match st.generatedObject with
  | none => []
  | some m => sceneMeshIds m

/-! ### Concrete demonstration inputs -/

-- Decidable equality for build results, used to evaluate the builders
-- on concrete inputs.
deriving instance DecidableEq for Except

/-- Canvas text metrics used for concrete evaluations: every string
measures 90 px (exactly one font-size wide), so a fresh label sprite has
scale (1, 1, 1). -/
def meas90 : String → ℚ := fun _ => 90

/-- A small valid water-like molecule: two atoms and one single bond. -/
def dMol : ChemData :=
  { atoms := some
      [{ element := "O", position := some ⟨0, 0, 0⟩, vseprShape := "Bent",
         bondAngles := some [] },
       { element := "H", position := some ⟨1, 0, 0⟩, vseprShape := "N/A",
         bondAngles := some [] }],
    bonds := some [{ type := "single", energy := "467 kJ/mol", start := 0, endIdx := 1 }] }

/-- The molecule scene built from dMol. -/
def cmMol : ChemModel :=
  ((buildChemistryModel meas90 dMol).toOption).getD { atoms := [], bonds := [], atomPositions := [] }


/-- Vertices for the 9-valid-plus-1-defective solid: three valid
3-coordinate vertices. -/
def vs9 : List JVertex :=
  [.arr [.fin 0, .fin 0, .fin 0], .arr [.fin 1, .fin 0, .fin 0], .arr [.fin 0, .fin 1, .fin 0]]

/-- One face group holding 9 valid triangles and 1 triangle whose third
index (99) has no vertex. -/
def fs9 : List JFaceGroup :=
  [{ details := { surfaceArea := "0.5 cm^2", perimeter := "3.41 cm" },
     triangles := some (List.replicate 9 ⟨some [0, 1, 2]⟩ ++ [⟨some [0, 1, 99]⟩]) }]

/-- The 9-valid-plus-1-defective SolidDescription. -/
def d9 : GeomData := { vertices := some vs9, faces := some fs9, labels := some [] }

/-- The solid scene built from d9. -/
def gm9 : GeomModel := ((buildGeometryModel meas90 d9).toOption).getD { meshes := [], sprites := [] }


/-- The label-rescale factor buildGeometryModel applies to a raw
description (1 when the description fails its schema checks and no
rescale happens). -/
def geomLabelFactorOf (meas : String → ℚ) (d : GeomData) : ℚ :=
  match d.vertices, d.faces with
  | some vs, some fs =>
      geomLabelFactor (geomMeshesFrom vs 0 fs) (geomSprites meas (d.labels.getD []))
  | _, _ => 1

/-- Squared bounding-box diagonal of the model a raw description
builds (0 when the description fails its schema checks). -/
def geomDiagSqOf (meas : String → ℚ) (d : GeomData) : ℚ :=
  match d.vertices, d.faces with
  | some vs, some fs =>
      match boxOfPoints (meshPoints (geomMeshesFrom vs 0 fs) ++
          (geomSprites meas (d.labels.getD [])).flatMap spriteCorners) with
      | some b => boxDiagSq b
      | none => 0
  | _, _ => 1

/-- A solid whose bounding box is 8 x 1 x 0 (squared diagonal 65): one
triangle plus one label inside the box. -/
def dA : GeomData :=
  { vertices := some [.arr [.fin 0, .fin 0, .fin 0], .arr [.fin 8, .fin 0, .fin 0],
                      .arr [.fin 0, .fin 1, .fin 0]],
    faces := some [{ details := { surfaceArea := "4 cm^2", perimeter := "17.06 cm" },
                     triangles := some [⟨some [0, 1, 2]⟩] }],
    labels := some [{ text := "L", position := ⟨4, 1 / 2, 0⟩ }] }

/-- A solid whose bounding box is 7 x 4 x 0 (squared diagonal 65, the
same as dA): one triangle plus one label inside the box. -/
def dB : GeomData :=
  { vertices := some [.arr [.fin 0, .fin 0, .fin 0], .arr [.fin 7, .fin 0, .fin 0],
                      .arr [.fin 0, .fin 4, .fin 0]],
    faces := some [{ details := { surfaceArea := "14 cm^2", perimeter := "19.06 cm" },
                     triangles := some [⟨some [0, 1, 2]⟩] }],
    labels := some [{ text := "L", position := ⟨7 / 2, 2, 0⟩ }] }


/-- The solid scene built from dA. -/
def gmABuilt : GeomModel :=
  ((buildGeometryModel meas90 dA).toOption).getD { meshes := [], sprites := [] }

/-- A one-atom (oxygen) molecule with no bonds, for the bond-free
label-rescale statement. -/
def dMolNB : ChemData :=
  { atoms := some [{ element := "O", position := some ⟨0, 0, 0⟩, vseprShape := "Bent",
                     bondAngles := some [] }],
    bonds := some [] }

/-- The molecule scene built from dMolNB. -/
def cmMolNB : ChemModel :=
  ((buildChemistryModel meas90 dMolNB).toOption).getD
    { atoms := [], bonds := [], atomPositions := [] }

/-! ### List helper lemmas -/

theorem mem_withIdx_fst_ge {α : Type} {l : List α} : ∀ {n : Nat} {p : Nat × α}, p ∈ withIdx n l → n ≤ p.1 := by
  induction l with
  | nil => intro n p h; simp [withIdx] at h
  | cons a rest ih =>
      intro n p h
      simp only [withIdx, List.mem_cons] at h
      rcases h with h | h
      · subst h; exact le_refl n
      · exact Nat.le_of_succ_le (ih h)

theorem withIdx_pairwise_fst_lt {α : Type} (l : List α) : ∀ n : Nat, (withIdx n l).Pairwise fun p q => p.1 < q.1 := by
  induction l with
  | nil => intro n; simp [withIdx]
  | cons a rest ih =>
      intro n
      refine List.Pairwise.cons ?_ (ih (n + 1))
      intro q hq
      exact Nat.lt_of_succ_le (mem_withIdx_fst_ge hq)

theorem withIdx_filter_fst {α : Type} (l : List α) : ∀ n i : Nat, n ≤ i →
    ((withIdx n l).filter fun p => p.1 == i) = (l[i - n]?.map fun a => (i, a)).toList := by
  induction l with
  | nil => intro n i _; simp [withIdx]
  | cons a rest ih =>
      intro n i hni
      simp only [withIdx, List.filter_cons]
      by_cases h : n = i
      · subst h
        have hrest : (withIdx (n + 1) rest).filter (fun p => p.1 == n) = [] := by
          rw [List.filter_eq_nil_iff]
          intro p hp
          have := mem_withIdx_fst_ge hp
          simp only [beq_iff_eq]
          omega
        simp [hrest, Nat.sub_self]
      · have hlt : n + 1 ≤ i := by omega
        have hne : ((n, a).1 == i) = false := by simp; omega
        have hsub : i - n = (i - (n + 1)) + 1 := by omega
        rw [hne]
        simp only [Bool.false_eq_true, if_false]
        rw [ih (n + 1) i hlt, hsub, List.getElem?_cons_succ]

theorem length_filterMap_isSome {α β : Type} (f : α → Option β) :
    ∀ l : List α, (l.filterMap f).length = l.countP fun a => (f a).isSome := by
  intro l
  induction l with
  | nil => simp
  | cons a rest ih =>
      cases h : f a <;> simp [List.filterMap_cons, h, List.countP_cons, ih]

/-! ### Geometry builder lemmas -/

theorem faceGroupMeshes_length (vs : List JVertex) (i : Nat) (fg : JFaceGroup) :
    (faceGroupMeshes vs i fg).length = countValidTriangles vs fg := by
  unfold faceGroupMeshes countValidTriangles
  cases h : fg.triangles with
  | none => simp
  | some ts =>
      simp only [Option.getD_some]
      rw [length_filterMap_isSome]
      apply List.countP_congr
      intro t _
      simp [Option.isSome_map]

theorem geomMeshesFrom_length (vs : List JVertex) :
    ∀ (fs : List JFaceGroup) (n : Nat),
      (geomMeshesFrom vs n fs).length = totalValidTriangles vs fs := by
  intro fs
  induction fs with
  | nil => intro n; simp [geomMeshesFrom, totalValidTriangles]
  | cons fg rest ih =>
      intro n
      simp [geomMeshesFrom, totalValidTriangles, List.length_append,
            faceGroupMeshes_length, ih n.succ]

theorem mem_faceGroupMeshes {vs : List JVertex} {i : Nat} {fg : JFaceGroup} {m : FaceMesh}
    (h : m ∈ faceGroupMeshes vs i fg) :
    m.faceId = i ∧ m.details = fg.details ∧
      ∃ t ∈ fg.triangles.getD [], resolveTriangle vs t = some (m.v0, m.v1, m.v2) := by
  unfold faceGroupMeshes at h
  cases hts : fg.triangles with
  | none => rw [hts] at h; simp at h
  | some ts =>
      rw [hts] at h
      rw [List.mem_filterMap] at h
      obtain ⟨t, ht, hmap⟩ := h
      rw [Option.map_eq_some'] at hmap
      obtain ⟨v, hv, hm⟩ := hmap
      subst hm
      refine ⟨rfl, rfl, t, by simp [hts, ht], ?_⟩
      simpa using hv

theorem mem_geomMeshesFrom {vs : List JVertex} :
    ∀ {fs : List JFaceGroup} {n : Nat} {m : FaceMesh}, m ∈ geomMeshesFrom vs n fs →
      ∃ j fg, fs[j]? = some fg ∧ m.faceId = n + j ∧ m ∈ faceGroupMeshes vs (n + j) fg := by
  intro fs
  induction fs with
  | nil => intro n m h; simp [geomMeshesFrom] at h
  | cons fg0 rest ih =>
      intro n m h
      simp only [geomMeshesFrom, List.mem_append] at h
      rcases h with h | h
      · exact ⟨0, fg0, by simp, by simpa using (mem_faceGroupMeshes h).1, by simpa using h⟩
      · obtain ⟨j, fg, hj, hid, hmem⟩ := ih h
        refine ⟨j + 1, fg, by simpa using hj, by omega, ?_⟩
        have : n + (j + 1) = n + 1 + j := by omega
        rw [this]
        exact hmem

theorem geomMeshesFrom_filter_faceId (vs : List JVertex) :
    ∀ (fs : List JFaceGroup) (n j : Nat) (fg : JFaceGroup), fs[j]? = some fg →
      ((geomMeshesFrom vs n fs).filter fun m => m.faceId == n + j) =
        faceGroupMeshes vs (n + j) fg := by
  intro fs
  induction fs with
  | nil => intro n j fg h; simp at h
  | cons fg0 rest ih =>
      intro n j fg h
      cases j with
      | zero =>
          simp only [List.getElem?_cons_zero, Option.some.injEq] at h
          subst h
          simp only [geomMeshesFrom, List.filter_append, Nat.add_zero]
          have h1 : (faceGroupMeshes vs n fg0).filter (fun m => m.faceId == n) =
              faceGroupMeshes vs n fg0 := by
            rw [List.filter_eq_self]
            intro m hm
            simp [(mem_faceGroupMeshes hm).1]
          have h2 : (geomMeshesFrom vs (n + 1) rest).filter (fun m => m.faceId == n) = [] := by
            rw [List.filter_eq_nil_iff]
            intro m hm
            obtain ⟨j', fg', _, hid, _⟩ := mem_geomMeshesFrom hm
            simp only [beq_iff_eq]
            omega
          rw [h1, h2, List.append_nil]
      | succ j' =>
          simp only [List.getElem?_cons_succ] at h
          simp only [geomMeshesFrom, List.filter_append]
          have h1 : (faceGroupMeshes vs n fg0).filter (fun m => m.faceId == n + (j' + 1)) = [] := by
            rw [List.filter_eq_nil_iff]
            intro m hm
            have := (mem_faceGroupMeshes hm).1
            simp only [beq_iff_eq]
            omega
          have heq : n + (j' + 1) = n + 1 + j' := by omega
          rw [h1, List.nil_append, heq, ih (n + 1) j' fg h]

/-! ### Chemistry builder lemmas -/

theorem chemAtomPrimsFrom_getElem? (meas : String → ℚ) :
    ∀ (atoms : List JAtom) (n k : Nat),
      (chemAtomPrimsFrom meas n atoms)[k]? = atoms[k]?.map fun a =>
        createAtom meas a (Vec3Q.scale CHEM_MODEL_SCALE (a.position.getD ⟨0, 0, 0⟩)) (n + k) := by
  intro atoms
  induction atoms with
  | nil => intro n k; simp [chemAtomPrimsFrom]
  | cons a rest ih =>
      intro n k
      cases k with
      | zero => simp [chemAtomPrimsFrom]
      | succ k' =>
          simp only [chemAtomPrimsFrom, List.getElem?_cons_succ, ih (n + 1) k']
          have : n + (k' + 1) = n + 1 + k' := by omega
          rw [this]

theorem chemAtomPrimsFrom_length (meas : String → ℚ) :
    ∀ (atoms : List JAtom) (n : Nat), (chemAtomPrimsFrom meas n atoms).length = atoms.length := by
  intro atoms
  induction atoms with
  | nil => intro n; simp [chemAtomPrimsFrom]
  | cons a rest ih => intro n; simp [chemAtomPrimsFrom, ih (n + 1)]

theorem mem_withIdx_chemAtom_atomIndex (meas : String → ℚ) :
    ∀ (atoms : List JAtom) (n : Nat) (p : Nat × AtomPrim),
      p ∈ withIdx n (chemAtomPrimsFrom meas n atoms) → p.2.details.atomIndex = p.1 := by
  intro atoms
  induction atoms with
  | nil => intro n p h; simp [chemAtomPrimsFrom, withIdx] at h
  | cons a rest ih =>
      intro n p h
      simp only [chemAtomPrimsFrom, withIdx, List.mem_cons] at h
      rcases h with h | h
      · subst h; rfl
      · exact ih (n + 1) p h

/-! ### Highlight state lemmas -/

theorem applyHighlights_map_fst : ∀ (l : List MeshId) (st : HighlightState),
    (applyHighlights l st).highlighted.map Prod.fst = st.highlighted.map Prod.fst ++ l := by
  intro l
  induction l with
  | nil => intro st; simp [applyHighlights]
  | cons id rest ih =>
      intro st
      simp [applyHighlights, ih]

theorem applyHighlights_colorOf_not_mem : ∀ (l : List MeshId) (st : HighlightState) (id : MeshId),
    id ∉ l → (applyHighlights l st).colorOf id = st.colorOf id := by
  intro l
  induction l with
  | nil => intro st id _; rfl
  | cons j rest ih =>
      intro st id h
      simp only [List.mem_cons, not_or] at h
      rw [applyHighlights, ih _ _ h.2]
      exact Function.update_noteq h.1 _ _

theorem applyHighlights_colorOf_mem : ∀ (l : List MeshId) (st : HighlightState) (id : MeshId),
    id ∈ l → (applyHighlights l st).colorOf id = highlightColorHex := by
  intro l
  induction l with
  | nil => intro st id h; simp at h
  | cons j rest ih =>
      intro st id h
      by_cases hr : id ∈ rest
      · exact ih _ _ hr
      · have : id = j := by
          rcases List.mem_cons.mp h with h' | h'
          · exact h'
          · exact absurd h' hr
        subst this
        rw [applyHighlights, applyHighlights_colorOf_not_mem _ _ _ hr]
        simp [Function.update_same]

theorem applyHighlights_highlighted_of_nodup :
    ∀ (l : List MeshId) (st : HighlightState), l.Nodup →
      (applyHighlights l st).highlighted =
        st.highlighted ++ l.map fun id => (id, st.colorOf id) := by
  intro l
  induction l with
  | nil => intro st _; simp [applyHighlights]
  | cons j rest ih =>
      intro st h
      rw [List.nodup_cons] at h
      rw [applyHighlights, ih _ h.2]
      simp only [List.map_cons]
      have hmap : rest.map (fun id =>
          (id, Function.update st.colorOf j highlightColorHex id)) =
          rest.map fun id => (id, st.colorOf id) := by
        apply List.map_congr_left
        intro id hid
        have : id ≠ j := fun he => h.1 (he ▸ hid)
        rw [Function.update_noteq this]
      rw [hmap]
      simp

theorem restoreColors_not_mem : ∀ (pairs : List (MeshId × Color)) (c : MeshId → Color)
    (id : MeshId), id ∉ pairs.map Prod.fst → restoreColors pairs c id = c id := by
  intro pairs
  induction pairs with
  | nil => intro c id _; rfl
  | cons p rest ih =>
      intro c id h
      simp only [List.map_cons, List.mem_cons, not_or] at h
      rw [restoreColors, ih _ _ h.2]
      exact Function.update_noteq h.1 _ _

theorem restoreColors_mem_of_nodup : ∀ (pairs : List (MeshId × Color)) (c : MeshId → Color)
    (id : MeshId) (v : Color), (pairs.map Prod.fst).Nodup → (id, v) ∈ pairs →
      restoreColors pairs c id = v := by
  intro pairs
  induction pairs with
  | nil => intro c id v _ h; simp at h
  | cons p rest ih =>
      intro c id v hnd hmem
      simp only [List.map_cons, List.nodup_cons] at hnd
      rcases List.mem_cons.mp hmem with h | h
      · have hid : p.1 = id := by rw [← h]
        have hv : p.2 = v := by rw [← h]
        rw [restoreColors]
        have hnotin : id ∉ rest.map Prod.fst := hid ▸ hnd.1
        rw [restoreColors_not_mem _ _ _ hnotin, ← hid, ← hv]
        simp [Function.update_same]
      · exact ih _ _ _ hnd.2 h

/-! ### Nodup of resolved primitive sets -/

theorem nodup_filter_withIdx_map {α : Type} (l : List α) (P : Nat × α → Bool)
    (f : Nat → MeshId) (hf : Function.Injective f) (n : Nat) :
    (((withIdx n l).filter P).map fun p => f p.1).Nodup := by
  have h1 : ((withIdx n l).filter P).Pairwise fun p q => p.1 < q.1 :=
    (withIdx_pairwise_fst_lt l n).filter P
  have h2 : (((withIdx n l).filter P).map fun p => f p.1).Pairwise (· ≠ ·) := by
    rw [List.pairwise_map]
    exact h1.imp fun h he => absurd (hf he) (Nat.ne_of_lt h)
  exact h2

theorem nodup_flatMap_bondCyl : ∀ (l : List (Nat × BondPrim)),
    (l.Pairwise fun p q => p.1 < q.1) →
    (l.flatMap fun p => (List.range p.2.cylinderCount).map (MeshId.bondCyl p.1)).Nodup := by
  intro l
  induction l with
  | nil => intro _; simp
  | cons p rest ih =>
      intro h
      rw [List.pairwise_cons] at h
      rw [List.flatMap_cons, List.nodup_append]
      refine ⟨?_, ih h.2, ?_⟩
      · refine List.Nodup.map ?_ (List.nodup_range _)
        intro a b hab
        simpa using hab
      · intro x hx1 hx2
        rw [List.mem_map] at hx1
        obtain ⟨c, _, rfl⟩ := hx1
        rw [List.mem_flatMap] at hx2
        obtain ⟨q, hq, hxq⟩ := hx2
        rw [List.mem_map] at hxq
        obtain ⟨c2, _, heq⟩ := hxq
        have hlt := h.1 q hq
        rw [MeshId.bondCyl.injEq] at heq
        omega

theorem resolveSourcePrims_nodup (m : SceneModel) (op : SelectSource) :
    (resolveSourcePrims m op).Nodup := by
  cases op with
  | pickMiss => simp [resolveSourcePrims]
  | restoreRef r =>
      cases m with
      | geom g =>
          cases r with
          | geometryFace id dd =>
              exact nodup_filter_withIdx_map _ _ _ (fun a b h => by simpa using h) 0
          | chemistryAtom id dd => simp [resolveSourcePrims, resolveRefPrims]
          | chemistryBond s e dd => simp [resolveSourcePrims, resolveRefPrims]
      | chem c =>
          cases r with
          | geometryFace id dd => simp [resolveSourcePrims, resolveRefPrims]
          | chemistryAtom id dd =>
              exact nodup_filter_withIdx_map _ _ _ (fun a b h => by simpa using h) 0
          | chemistryBond s e dd =>
              exact nodup_flatMap_bondCyl _ ((withIdx_pairwise_fst_lt _ 0).filter _)
  | pickHit hit =>
      cases m with
      | geom g =>
          cases hit with
          | faceMesh k =>
              cases hk : g.meshes[k]? with
              | none => simp [resolveSourcePrims, pickResolve, hk]
              | some fm =>
                  simp only [resolveSourcePrims, pickResolve, hk, Option.map_some',
                             Option.getD_some]
                  exact nodup_filter_withIdx_map _ _ _ (fun a b h => by simpa using h) 0
          | atomSphere i => simp [resolveSourcePrims, pickResolve]
          | bondCyl b c0 => simp [resolveSourcePrims, pickResolve]
      | chem c =>
          cases hit with
          | faceMesh k => simp [resolveSourcePrims, pickResolve]
          | atomSphere i =>
              cases hk : c.atoms[i]? with
              | none => simp [resolveSourcePrims, pickResolve, hk]
              | some ap =>
                  by_cases hel : ap.details.element = ""
                  · simp [resolveSourcePrims, pickResolve, hk, hel]
                  · simp [resolveSourcePrims, pickResolve, hk, hel]
          | bondCyl b c0 =>
              cases hk : c.bonds[b]? with
              | none => simp [resolveSourcePrims, pickResolve, hk]
              | some bp =>
                  by_cases hty : bp.details.type = ""
                  · simp [resolveSourcePrims, pickResolve, hk, hty]
                  · simp only [resolveSourcePrims, pickResolve, hk, if_neg, hty,
                               ne_eq, not_false_eq_true, if_true, Option.map_some',
                               Option.getD_some]
                    refine List.Nodup.map ?_ (List.nodup_range _)
                    intro a b hab
                    simpa using hab

/-- Core behavior of two successive select operations: after the second,
the highlight set records exactly the second primitive list; first-only
primitives get their pre-first color back; second primitives show the
highlight color. -/
theorem selectOp_twice_spec (p1 p2 : List MeshId) (st0 : HighlightState)
    (h0 : st0.highlighted = []) (hnd : p1.Nodup) :
    ((selectOp p1 st0).highlighted.map Prod.fst = p1) ∧
    ((selectOp p2 (selectOp p1 st0)).highlighted.map Prod.fst = p2) ∧
    (∀ p ∈ p1, p ∉ p2 → (selectOp p2 (selectOp p1 st0)).colorOf p = st0.colorOf p) ∧
    (∀ p ∈ p2, (selectOp p2 (selectOp p1 st0)).colorOf p = highlightColorHex) := by
  have hclear0 : clearHighlights st0 = ⟨st0.colorOf, []⟩ := by
    simp only [clearHighlights, h0]
    rfl
  have hst1h : (selectOp p1 st0).highlighted = p1.map fun id => (id, st0.colorOf id) := by
    rw [selectOp, hclear0, applyHighlights_highlighted_of_nodup _ _ hnd]
    simp
  have hst1fst : (selectOp p1 st0).highlighted.map Prod.fst = p1 := by
    rw [hst1h, List.map_map]
    simp [Function.comp_def]
  refine ⟨hst1fst, ?_, ?_, ?_⟩
  · rw [selectOp, applyHighlights_map_fst]
    simp [clearHighlights]
  · intro p hp1 hp2
    rw [selectOp, applyHighlights_colorOf_not_mem _ _ _ hp2]
    show (clearHighlights (selectOp p1 st0)).colorOf p = st0.colorOf p
    simp only [clearHighlights]
    have hmemp : (p, st0.colorOf p) ∈ (selectOp p1 st0).highlighted := by
      rw [hst1h]
      exact List.mem_map_of_mem _ hp1
    have hndfst : ((selectOp p1 st0).highlighted.map Prod.fst).Nodup := by
      rw [hst1fst]
      exact hnd
    exact restoreColors_mem_of_nodup _ _ _ _ hndfst hmemp
  · intro p hp2
    rw [selectOp]
    exact applyHighlights_colorOf_mem _ _ _ hp2

/-- Claim C3: for every pair of successive select operations (picks or
reference restores) on the same scene, after the second operation
exactly the primitives of the second resolved entity are in the
highlight set and every primitive highlighted by the first operation
that is not in the second entity has its original color restored; after
each operation the highlight set holds exactly one resolved entity's
primitives (every primitive of the second selection shows the highlight
color), with no nesting or stacking. -/
theorem claim_C3_single_highlight (m : SceneModel) (st0 : HighlightState)
    (op1 op2 : SelectSource) (h0 : st0.highlighted = []) :
    ((selectOp (resolveSourcePrims m op1) st0).highlighted.map Prod.fst =
        resolveSourcePrims m op1) ∧
    ((selectOp (resolveSourcePrims m op2)
        (selectOp (resolveSourcePrims m op1) st0)).highlighted.map Prod.fst =
        resolveSourcePrims m op2) ∧
    (∀ p ∈ resolveSourcePrims m op1, p ∉ resolveSourcePrims m op2 →
      (selectOp (resolveSourcePrims m op2)
        (selectOp (resolveSourcePrims m op1) st0)).colorOf p = st0.colorOf p) ∧
    (∀ p ∈ resolveSourcePrims m op2,
      (selectOp (resolveSourcePrims m op2)
        (selectOp (resolveSourcePrims m op1) st0)).colorOf p = highlightColorHex) :=
  selectOp_twice_spec (resolveSourcePrims m op1) (resolveSourcePrims m op2) st0 h0
    (resolveSourcePrims_nodup m op1)

/-- Claim C10: for every bond, the cylinder count is decided by a
case-insensitive match on the bond's type string — exactly 2 cylinders
when the lowercased type equals "double", exactly 3 when it equals
"triple", and exactly 1 for every other string (an unrecognized or
misspelled type silently renders as a single bond). -/
theorem claim_C10_bond_type_dispatch (b : JBond) (s e : Vec3R) (nm : String) :
    (createBond b s e nm).cylinders.length =
      if toLowerStr b.type = "double" then 2
      else if toLowerStr b.type = "triple" then 3 else 1 := by
  simp only [createBond, bondCylinderCountOf]
  by_cases h2 : toLowerStr b.type = "double"
  · simp [h2]
  · by_cases h3 : toLowerStr b.type = "triple"
    · simp [h2, h3]
    · simp [h2, h3]

/-- Claim C1: for every valid MoleculeDescription, capturing the
selection of any atom — the stored reference holding kind
chemistry_atom, the atom's index as id and a copy of its detail
payload — and then restoring that reference against a scene rebuilt
from the same MoleculeDescription highlights exactly the same set of
primitives (the one sphere of that atom, matched by the stored atom
index, never by object identity) and yields a detail payload equal to
the captured one.  buildChemistryModel is a pure function of the data,
so the freshly rebuilt scene is the same model cm the pick ran on. -/
theorem claim_C1_atom_selection_roundtrip (meas : String → ℚ) (d : ChemData) (cm : ChemModel)
    (i : Nat) (r : SelectionRef) (prims : List MeshId)
    (hok : buildChemistryModel meas d = .ok cm)
    (hpick : pickResolve (.chem cm) (.atomSphere i) = some (r, prims)) :
    ∃ a : AtomPrim, cm.atoms[i]? = some a ∧
      r = .chemistryAtom i a.details ∧
      a.details.atomIndex = i ∧
      prims = [.atomSphere i] ∧
      resolveRefPrims (.chem cm) r = [.atomSphere i] := by
  -- unpack the successful build
  cases hd : d.atoms with
  | none =>
      simp only [buildChemistryModel, hd] at hok
      exact Except.noConfusion hok
  | some atoms =>
      simp only [buildChemistryModel, hd] at hok
      by_cases he : atoms.isEmpty
      · rw [if_pos he] at hok
        exact Except.noConfusion hok
      · rw [if_neg he] at hok
        have hcm : cm = { atoms := chemAtomPrimsFrom meas 0 atoms,
                          bonds := chemBondPrims atoms (d.bonds.getD []),
                          atomPositions := chemAtomPositions atoms } := by
          cases hok
          rfl
        -- unpack the pick
        cases hA : cm.atoms[i]? with
        | none =>
            simp only [pickResolve, hA] at hpick
            exact Option.noConfusion hpick
        | some ap =>
            simp only [pickResolve, hA] at hpick
            by_cases hel : ap.details.element = ""
            · rw [if_neg (fun hne => hne hel)] at hpick
              exact Option.noConfusion hpick
            · rw [if_pos hel] at hpick
              have hr : r = .chemistryAtom ap.details.atomIndex ap.details ∧
                  prims = [MeshId.atomSphere i] := by
                have h' := hpick
                simp only [Option.some.injEq, Prod.mk.injEq] at h'
                exact ⟨h'.1.symm, h'.2.symm⟩
              -- the i-th built atom carries atomIndex i
              have hidx : ap.details.atomIndex = i := by
                have hA' := hA
                rw [hcm] at hA'
                simp only at hA'
                rw [chemAtomPrimsFrom_getElem? meas atoms 0 i] at hA'
                cases hja : atoms[i]? with
                | none => rw [hja] at hA'; exact Option.noConfusion hA'
                | some ja =>
                    rw [hja] at hA'
                    simp only [Option.map_some', Option.some.injEq] at hA'
                    rw [← hA']
                    simp [createAtom]
              refine ⟨ap, rfl, by rw [hr.1, hidx], hidx, hr.2, ?_⟩
              -- reference restore re-selects by the stored atom index
              rw [hr.1, hidx]
              show ((withIdx 0 cm.atoms).filter fun p => p.2.details.atomIndex == i).map
                  (fun p => MeshId.atomSphere p.1) = [MeshId.atomSphere i]
              have hfc : ((withIdx 0 cm.atoms).filter fun p => p.2.details.atomIndex == i) =
                  ((withIdx 0 cm.atoms).filter fun p => p.1 == i) := by
                apply List.filter_congr
                intro p hp
                have hax : p.2.details.atomIndex = p.1 := by
                  apply mem_withIdx_chemAtom_atomIndex meas atoms 0
                  rw [hcm] at hp
                  exact hp
                rw [hax]
              rw [hfc, withIdx_filter_fst cm.atoms 0 i (Nat.zero_le i)]
              simp [hA]

/-- Claim C1 witness: picking the oxygen atom of the two-atom molecule
dMol produces the chemistry_atom reference with id 0 and restoring it
re-highlights exactly that sphere. -/
theorem claim_C1_witness :
    buildChemistryModel meas90 dMol = .ok cmMol ∧
    ∃ r prims, pickResolve (.chem cmMol) (.atomSphere 0) = some (r, prims) ∧
      ∃ a : AtomPrim, cmMol.atoms[0]? = some a ∧
        r = .chemistryAtom 0 a.details ∧
        a.details.atomIndex = 0 ∧
        prims = [.atomSphere 0] ∧
        resolveRefPrims (.chem cmMol) r = [.atomSphere 0] := by
  have hok : buildChemistryModel meas90 dMol = .ok cmMol := rfl
  have hpick : pickResolve (.chem cmMol) (.atomSphere 0) =
      some (.chemistryAtom 0 { element := "O", bondAngles := some [], vseprShape := "Bent",
                               atomIndex := 0 },
            [.atomSphere 0]) := rfl
  exact ⟨hok, _, _, hpick,
    claim_C1_atom_selection_roundtrip meas90 dMol cmMol 0 _ _ hok hpick⟩

/-- Claim C2 counterexample: with the two-atom molecule active, a
rebuild that fails fatally (SchemaError: no vertices array) leaves the
scene with NO generated model — the prior model's primitives are
neither in the scene nor pickable, because handleGenerateClick removes
the prior model before the build runs.  The claim, as stated, requires
the prior model to remain in the scene and pickable. -/
theorem claim_C2_counterexample :
    (handleGenerateModel meas90 ⟨some (.chem cmMol)⟩ .geometry
        (.geomInput ⟨none, none, none⟩)).2 = some (.schemaError "vertices") ∧
    (handleGenerateModel meas90 ⟨some (.chem cmMol)⟩ .geometry
        (.geomInput ⟨none, none, none⟩)).1.generatedObject = none ∧
    pickablePrims (handleGenerateModel meas90 ⟨some (.chem cmMol)⟩ .geometry
        (.geomInput ⟨none, none, none⟩)).1 = [] ∧
    pickablePrims ⟨some (.chem cmMol)⟩ = [.atomSphere 0, .atomSphere 1, .bondCyl 0 0] :=
  ⟨rfl, rfl, rfl, by decide⟩

/-- Claim C2 amended: every build attempt that fails with a fatal error
leaves NO active model: the previously active model was already removed
from the scene at the start of the generate handler, before the build
ran, so after the failure no generated model exists and no primitive is
pickable. -/
theorem claim_C2_amended (meas : String → ℚ) (st : ActiveScene) (mode : AppMode)
    (input : InputData) (e : BuildError)
    (herr : (handleGenerateModel meas st mode input).2 = some e) :
    (handleGenerateModel meas st mode input).1.generatedObject = none ∧
    pickablePrims (handleGenerateModel meas st mode input).1 = [] := by
  cases hb : buildFor meas mode input with
  | ok m =>
      by_cases hv : isModelValid m
      · exfalso
        simp only [handleGenerateModel, hb, hv, if_true] at herr
        exact Option.noConfusion herr
      · simp only [handleGenerateModel, hb] at herr ⊢
        rw [if_neg hv] at herr ⊢
        simp [pickablePrims]
  | error e2 =>
      simp only [handleGenerateModel, hb] at herr ⊢
      simp [pickablePrims]

/-- Claim C2 witness: a chemistry rebuild over an empty atoms array
fails with the atoms SchemaError and leaves no active model. -/
theorem claim_C2_witness :
    (handleGenerateModel meas90 ⟨some (.chem cmMol)⟩ .chemistry
        (.chemInput ⟨some [], none⟩)).2 = some (.schemaError "atoms") ∧
    ((handleGenerateModel meas90 ⟨some (.chem cmMol)⟩ .chemistry
        (.chemInput ⟨some [], none⟩)).1.generatedObject = none ∧
     pickablePrims (handleGenerateModel meas90 ⟨some (.chem cmMol)⟩ .chemistry
        (.chemInput ⟨some [], none⟩)).1 = []) :=
  ⟨rfl, claim_C2_amended meas90 ⟨some (.chem cmMol)⟩ .chemistry (.chemInput ⟨some [], none⟩)
      (.schemaError "atoms") rfl⟩

/-- Claim C3 witness: two successive picks on the dMol scene (the
oxygen sphere, then the bond cylinder) starting from a fresh state. -/
theorem claim_C3_witness :
    (HighlightState.mk (fun _ => 0) []).highlighted = [] ∧
    (((selectOp (resolveSourcePrims (.chem cmMol) (.pickHit (.atomSphere 0)))
         (HighlightState.mk (fun _ => 0) [])).highlighted.map Prod.fst =
        resolveSourcePrims (.chem cmMol) (.pickHit (.atomSphere 0))) ∧
     ((selectOp (resolveSourcePrims (.chem cmMol) (.pickHit (.bondCyl 0 0)))
         (selectOp (resolveSourcePrims (.chem cmMol) (.pickHit (.atomSphere 0)))
           (HighlightState.mk (fun _ => 0) []))).highlighted.map Prod.fst =
        resolveSourcePrims (.chem cmMol) (.pickHit (.bondCyl 0 0))) ∧
     (∀ p ∈ resolveSourcePrims (.chem cmMol) (.pickHit (.atomSphere 0)),
        p ∉ resolveSourcePrims (.chem cmMol) (.pickHit (.bondCyl 0 0)) →
        (selectOp (resolveSourcePrims (.chem cmMol) (.pickHit (.bondCyl 0 0)))
           (selectOp (resolveSourcePrims (.chem cmMol) (.pickHit (.atomSphere 0)))
             (HighlightState.mk (fun _ => 0) []))).colorOf p =
          (HighlightState.mk (fun _ => 0) []).colorOf p) ∧
     (∀ p ∈ resolveSourcePrims (.chem cmMol) (.pickHit (.bondCyl 0 0)),
        (selectOp (resolveSourcePrims (.chem cmMol) (.pickHit (.bondCyl 0 0)))
           (selectOp (resolveSourcePrims (.chem cmMol) (.pickHit (.atomSphere 0)))
             (HighlightState.mk (fun _ => 0) []))).colorOf p = highlightColorHex)) :=
  ⟨rfl, claim_C3_single_highlight (.chem cmMol) (HighlightState.mk (fun _ => 0) [])
      (.pickHit (.atomSphere 0)) (.pickHit (.bondCyl 0 0)) rfl⟩

/-- Claim C4: for every SolidDescription accepted by the validator, the
geometry build produces a number of pickable triangle meshes equal to
the total count of valid triangles across all face groups, each face
group at sequence index j contributes exactly its own valid-triangle
count (all tagged faceId = j), and every produced mesh carries a faceId
equal to the sequence index of the face group one of whose valid
triangles it resolves. -/
theorem claim_C4_face_counts (meas : String → ℚ) (d : GeomData) (gm : GeomModel)
    (vs : List JVertex) (fs : List JFaceGroup)
    (hv : d.vertices = some vs) (hf : d.faces = some fs)
    (hok : buildGeometryModel meas d = .ok gm) :
    gm.meshes.length = totalValidTriangles vs fs ∧
    (∀ j fg, fs[j]? = some fg →
      (gm.meshes.filter fun m => m.faceId == j).length = countValidTriangles vs fg) ∧
    (∀ m ∈ gm.meshes, ∃ fg, fs[m.faceId]? = some fg ∧ m.details = fg.details ∧
      ∃ t ∈ fg.triangles.getD [], resolveTriangle vs t = some (m.v0, m.v1, m.v2)) := by
  simp only [buildGeometryModel, hv, hf] at hok
  by_cases he1 : vs.isEmpty
  · rw [if_pos he1] at hok; exact Except.noConfusion hok
  · rw [if_neg he1] at hok
    by_cases he2 : fs.isEmpty
    · rw [if_pos he2] at hok; exact Except.noConfusion hok
    · rw [if_neg he2] at hok
      by_cases he3 : (geomMeshesFrom vs 0 fs).isEmpty
      · rw [if_pos he3] at hok; exact Except.noConfusion hok
      · rw [if_neg he3] at hok
        have hm : gm.meshes = geomMeshesFrom vs 0 fs := by
          cases hok
          rfl
        refine ⟨by rw [hm, geomMeshesFrom_length], ?_, ?_⟩
        · intro j fg hj
          have hfil := geomMeshesFrom_filter_faceId vs fs 0 j fg hj
          rw [Nat.zero_add] at hfil
          rw [hm, hfil, faceGroupMeshes_length]
        · intro m hmem
          rw [hm] at hmem
          obtain ⟨j, fg, hj, hid, hmem'⟩ := mem_geomMeshesFrom hmem
          rw [Nat.zero_add] at hid hmem'
          obtain ⟨_, hdet, t, ht, hres⟩ := mem_faceGroupMeshes hmem'
          exact ⟨fg, by rw [hid]; exact hj, hdet, t, ht, hres⟩

/-- Claim C5: for every SolidDescription with non-empty vertices and
faces, each individually defective triangle is dropped without aborting
the build, and the build raises EmptyModelError exactly when the number
of valid triangles is zero; otherwise it succeeds with exactly one mesh
per valid triangle.  The concrete 9-valid-plus-1-defective instance is
evaluated in the witness below. -/
theorem claim_C5_defective_triangles (meas : String → ℚ) (d : GeomData)
    (vs : List JVertex) (fs : List JFaceGroup)
    (hv : d.vertices = some vs) (hvne : vs ≠ [])
    (hf : d.faces = some fs) (hfne : fs ≠ []) :
    (buildGeometryModel meas d = .error .emptyModelError ↔ totalValidTriangles vs fs = 0) ∧
    (totalValidTriangles vs fs ≠ 0 →
      ∃ gm, buildGeometryModel meas d = .ok gm ∧
        gm.meshes.length = totalValidTriangles vs fs) := by
  have he1 : vs.isEmpty = false := by
    cases vs with
    | nil => exact absurd rfl hvne
    | cons a l => rfl
  have he2 : fs.isEmpty = false := by
    cases fs with
    | nil => exact absurd rfl hfne
    | cons a l => rfl
  have hlen : (geomMeshesFrom vs 0 fs).length = totalValidTriangles vs fs :=
    geomMeshesFrom_length vs fs 0
  have hbuild : buildGeometryModel meas d =
      (if (geomMeshesFrom vs 0 fs).isEmpty then .error .emptyModelError
       else .ok { meshes := geomMeshesFrom vs 0 fs,
                  sprites := (geomSprites meas (d.labels.getD [])).map
                    (scaleSprite (geomLabelFactor (geomMeshesFrom vs 0 fs)
                      (geomSprites meas (d.labels.getD [])))) }) := by
    simp only [buildGeometryModel, hv, hf, he1, he2, Bool.false_eq_true, if_false]
  by_cases hE : (geomMeshesFrom vs 0 fs).isEmpty
  · have hzero : totalValidTriangles vs fs = 0 := by
      rw [← hlen]
      exact List.isEmpty_iff_length_eq_zero.mp hE
    rw [hbuild, if_pos hE]
    exact ⟨⟨fun _ => hzero, fun _ => rfl⟩, fun hne => absurd hzero hne⟩
  · have hnz : totalValidTriangles vs fs ≠ 0 := by
      rw [← hlen]
      intro hc
      exact hE (List.isEmpty_iff_length_eq_zero.mpr hc)
    rw [hbuild, if_neg hE]
    exact ⟨⟨fun hc => Except.noConfusion hc, fun hc => absurd hc hnz⟩,
           fun _ => ⟨_, rfl, hlen⟩⟩

/-- Claim C5 witness: on d9 the build does not raise EmptyModelError,
succeeds, and produces exactly 9 triangle meshes (the defective
triangle is dropped, the build is not aborted). -/
theorem claim_C5_witness :
    d9.vertices = some vs9 ∧ vs9 ≠ [] ∧ d9.faces = some fs9 ∧ fs9 ≠ [] ∧
    totalValidTriangles vs9 fs9 = 9 ∧
    ((buildGeometryModel meas90 d9 = .error .emptyModelError ↔
        totalValidTriangles vs9 fs9 = 0) ∧
     (totalValidTriangles vs9 fs9 ≠ 0 →
       ∃ gm, buildGeometryModel meas90 d9 = .ok gm ∧
         gm.meshes.length = totalValidTriangles vs9 fs9)) :=
  ⟨rfl, by decide, rfl, by decide, by decide,
   claim_C5_defective_triangles meas90 d9 vs9 fs9 rfl (by decide) rfl (by decide)⟩

/-- Claim C4 witness: the d9 build applied to the count-and-faceId
statement. -/
theorem claim_C4_witness :
    buildGeometryModel meas90 d9 = .ok gm9 ∧
    (gm9.meshes.length = totalValidTriangles vs9 fs9 ∧
     (∀ j fg, fs9[j]? = some fg →
       (gm9.meshes.filter fun m => m.faceId == j).length = countValidTriangles vs9 fg) ∧
     (∀ m ∈ gm9.meshes, ∃ fg, fs9[m.faceId]? = some fg ∧ m.details = fg.details ∧
       ∃ t ∈ fg.triangles.getD [], resolveTriangle vs9 t = some (m.v0, m.v1, m.v2))) :=
  ⟨rfl, claim_C4_face_counts meas90 d9 gm9 vs9 fs9 rfl rfl rfl⟩

/-! ### Real-vector computation lemmas -/

theorem Vec3R.mk_sub (a1 a2 a3 b1 b2 b3 : ℝ) :
    (⟨a1, a2, a3⟩ - ⟨b1, b2, b3⟩ : Vec3R) = ⟨a1 - b1, a2 - b2, a3 - b3⟩ := rfl

theorem Vec3R.mk_add (a1 a2 a3 b1 b2 b3 : ℝ) :
    (⟨a1, a2, a3⟩ + ⟨b1, b2, b3⟩ : Vec3R) = ⟨a1 + b1, a2 + b2, a3 + b3⟩ := rfl

theorem Vec3R.mk_neg (a1 a2 a3 : ℝ) : (-(⟨a1, a2, a3⟩ : Vec3R)) = ⟨-a1, -a2, -a3⟩ := rfl

theorem Vec3R.mk_smul (c a1 a2 a3 : ℝ) : (c • (⟨a1, a2, a3⟩ : Vec3R)) = ⟨c * a1, c * a2, c * a3⟩ :=
  rfl

theorem Vec3R.zero_def : (0 : Vec3R) = ⟨0, 0, 0⟩ := rfl

theorem Vec3R.sub_self (v : Vec3R) : v - v = 0 := by
  cases v
  rw [Vec3R.mk_sub, Vec3R.zero_def]
  simp

theorem rlen_zero : rlen 0 = 0 := by
  rw [rlen, Vec3R.zero_def, rlengthSq]
  simp

theorem rnormalize_zero : rnormalize (0 : Vec3R) = 0 := by
  rw [rnormalize, if_pos rlen_zero, Vec3R.zero_def, Vec3R.mk_smul]
  simp

theorem rnormalize_of_rlen_one (v : Vec3R) (h : rlen v = 1) : rnormalize v = v := by
  cases v
  rw [rnormalize, h, if_neg one_ne_zero, Vec3R.mk_smul]
  norm_num

theorem angleTo_left_zero (b : Vec3R) : angleTo 0 b = Real.pi / 2 := by
  have h : Real.sqrt (rlengthSq 0 * rlengthSq b) = 0 := by
    rw [Vec3R.zero_def, rlengthSq]
    norm_num
  rw [angleTo, if_pos h]

theorem angleTo_right_zero (a : Vec3R) : angleTo a 0 = Real.pi / 2 := by
  have h : Real.sqrt (rlengthSq a * rlengthSq 0) = 0 := by
    have h0 : rlengthSq (0 : Vec3R) = 0 := by
      rw [Vec3R.zero_def, rlengthSq]
      norm_num
    rw [h0, mul_zero, Real.sqrt_zero]
  rw [angleTo, if_pos h]

/-- The drawn overlay, made explicit: whenever the computed angle is not
below the 0.01 cutoff, drawAngleVisualization returns the record built
from the angle, the plane normal and the (possibly substituted)
bisector. -/
theorem drawAngleVisualization_spec (p1 pC p2 : Vec3R) (t : String)
    (h : ¬ (angleTo (p1 - pC) (p2 - pC) < 0.01)) :
    drawAngleVisualization p1 pC p2 t = some
      { center := pC,
        xAxis := rnormalize (p1 - pC),
        yAxis := rnormalize (rcross (anglePlaneNormal (p1 - pC) (p2 - pC))
          (rnormalize (p1 - pC))),
        zAxis := anglePlaneNormal (p1 - pC) (p2 - pC),
        arcRadius := 0.4 * CHEM_MODEL_SCALE_R,
        arcSpan := angleTo (p1 - pC) (p2 - pC),
        labelPos := pC + ((0.4 * CHEM_MODEL_SCALE_R + 0.15) * 1.5) •
          rnormalize (if rlengthSq (rnormalize (p1 - pC) + rnormalize (p2 - pC)) < 0.0001
            then rnormalize (rcross (anglePlaneNormal (p1 - pC) (p2 - pC))
              (rnormalize (p1 - pC)))
            else rnormalize (p1 - pC) + rnormalize (p2 - pC)),
        labelText := t } := by
  simp only [drawAngleVisualization]
  rw [if_neg h]

/-- Claim C7 counterexample: with p1 = pCenter (a zero-length first
ray), drawAngleVisualization DOES produce an overlay — three.js angleTo
returns π/2 for a zero denominator, which passes the 0.01 cutoff — so
the claim that no overlay is produced is false at this input. -/
theorem claim_C7_counterexample :
    (drawAngleVisualization ⟨0, 0, 0⟩ ⟨0, 0, 0⟩ ⟨2, 0, 0⟩ "90°").isSome = true := by
  have hv : ((⟨0, 0, 0⟩ : Vec3R) - ⟨0, 0, 0⟩) = 0 := Vec3R.sub_self _
  have hang : angleTo ((⟨0, 0, 0⟩ : Vec3R) - ⟨0, 0, 0⟩) ((⟨2, 0, 0⟩ : Vec3R) - ⟨0, 0, 0⟩) =
      Real.pi / 2 := by
    rw [hv, angleTo_left_zero]
  have hnot : ¬ (angleTo ((⟨0, 0, 0⟩ : Vec3R) - ⟨0, 0, 0⟩)
      ((⟨2, 0, 0⟩ : Vec3R) - ⟨0, 0, 0⟩) < 0.01) := by
    rw [hang]
    have hpi := Real.pi_gt_three
    norm_num
    linarith
  rw [drawAngleVisualization_spec _ _ _ _ hnot]
  rfl

/-- Claim C7 amended: for every call of the angle overlay where p1
equals pCenter or p2 equals pCenter (one ray is the zero vector), no
error is raised, but an overlay IS produced: angleTo of a zero-length
vector is π/2 (the three.js zero-denominator guard), which passes the
0.01 cutoff, so an arc spanning [0, π/2] and a label are added. -/
theorem claim_C7_amended (p1 pCenter p2 : Vec3R) (t : String)
    (h : p1 = pCenter ∨ p2 = pCenter) :
    ∃ o, drawAngleVisualization p1 pCenter p2 t = some o ∧ o.arcSpan = Real.pi / 2 := by
  have hang : angleTo (p1 - pCenter) (p2 - pCenter) = Real.pi / 2 := by
    rcases h with h | h
    · rw [h, Vec3R.sub_self, angleTo_left_zero]
    · rw [h, Vec3R.sub_self, angleTo_right_zero]
  have hnot : ¬ (angleTo (p1 - pCenter) (p2 - pCenter) < 0.01) := by
    rw [hang]
    have hpi := Real.pi_gt_three
    norm_num
    linarith
  rw [drawAngleVisualization_spec _ _ _ _ hnot]
  exact ⟨_, rfl, hang⟩

/-- Claim C7 witness: the amended statement applied at
p1 = pCenter = (0,0,0), p2 = (1,0,0). -/
theorem claim_C7_witness :
    ((⟨0, 0, 0⟩ : Vec3R) = ⟨0, 0, 0⟩ ∨ (⟨1, 0, 0⟩ : Vec3R) = ⟨0, 0, 0⟩) ∧
    ∃ o, drawAngleVisualization ⟨0, 0, 0⟩ ⟨0, 0, 0⟩ ⟨1, 0, 0⟩ "90°" = some o ∧
      o.arcSpan = Real.pi / 2 :=
  ⟨Or.inl rfl,
   claim_C7_amended ⟨0, 0, 0⟩ ⟨0, 0, 0⟩ ⟨1, 0, 0⟩ "90°" (Or.inl rfl)⟩

/-- Claim C8: for p1 = (1,0,0), pCenter = (0,0,0), p2 = (-1,0,0) — a
180° angle with colinear rays — the overlay produces a non-empty arc
spanning [0, π] and a label whose position is offset from pCenter along
the substituted in-plane Y axis of the orthonormal basis (the true
bisector of the two rays is the zero vector and is replaced by the
basis Y axis). -/
theorem claim_C8_straight_angle :
    ∃ o : AngleOverlay,
      drawAngleVisualization ⟨1, 0, 0⟩ ⟨0, 0, 0⟩ ⟨-1, 0, 0⟩ "180°" = some o ∧
      o.arcSpan = Real.pi ∧ 0 < o.arcSpan ∧
      o.yAxis = ⟨0, 1, 0⟩ ∧
      o.center = ⟨0, 0, 0⟩ ∧
      o.labelPos = ⟨0, 2.025, 0⟩ ∧
      o.labelPos = o.center + (2.025 : ℝ) • o.yAxis := by
  have hv1 : ((⟨1, 0, 0⟩ : Vec3R) - ⟨0, 0, 0⟩) = ⟨1, 0, 0⟩ := by
    rw [Vec3R.mk_sub]; norm_num
  have hv2 : ((⟨-1, 0, 0⟩ : Vec3R) - ⟨0, 0, 0⟩) = ⟨-1, 0, 0⟩ := by
    rw [Vec3R.mk_sub]; norm_num
  have hls1 : rlengthSq ⟨1, 0, 0⟩ = 1 := by rw [rlengthSq]; norm_num
  have hls2 : rlengthSq ⟨-1, 0, 0⟩ = 1 := by rw [rlengthSq]; norm_num
  have hlen1 : rlen ⟨1, 0, 0⟩ = 1 := by rw [rlen, hls1, Real.sqrt_one]
  have hlen2 : rlen ⟨-1, 0, 0⟩ = 1 := by rw [rlen, hls2, Real.sqrt_one]
  have hn1 : rnormalize ⟨1, 0, 0⟩ = ⟨1, 0, 0⟩ := rnormalize_of_rlen_one _ hlen1
  have hn2 : rnormalize ⟨-1, 0, 0⟩ = ⟨-1, 0, 0⟩ := rnormalize_of_rlen_one _ hlen2
  have hlen010 : rlen ⟨0, 1, 0⟩ = 1 := by
    rw [rlen]
    have : rlengthSq ⟨0, 1, 0⟩ = 1 := by rw [rlengthSq]; norm_num
    rw [this, Real.sqrt_one]
  have hlen001 : rlen ⟨0, 0, 1⟩ = 1 := by
    rw [rlen]
    have : rlengthSq ⟨0, 0, 1⟩ = 1 := by rw [rlengthSq]; norm_num
    rw [this, Real.sqrt_one]
  have hsq1 : Real.sqrt (rlengthSq ⟨1, 0, 0⟩ * rlengthSq ⟨-1, 0, 0⟩) = 1 := by
    rw [hls1, hls2, one_mul, Real.sqrt_one]
  have hdot : rdot ⟨1, 0, 0⟩ ⟨-1, 0, 0⟩ = -1 := by rw [rdot]; norm_num
  have hang : angleTo ⟨1, 0, 0⟩ ⟨-1, 0, 0⟩ = Real.pi := by
    rw [angleTo, hsq1, if_neg one_ne_zero, hdot]
    norm_num [Real.arccos_neg_one]
  have hcross0 : rcross ⟨1, 0, 0⟩ ⟨-1, 0, 0⟩ = ⟨0, 0, 0⟩ := by rw [rcross]; norm_num
  have hls0 : rlengthSq ⟨0, 0, 0⟩ = 0 := by rw [rlengthSq]; norm_num
  have hdx : rdot ⟨1, 0, 0⟩ ⟨1, 0, 0⟩ = 1 := by rw [rdot]; norm_num
  have hcx : rcross ⟨1, 0, 0⟩ ⟨0, 1, 0⟩ = ⟨0, 0, 1⟩ := by rw [rcross]; norm_num
  have hnormal : anglePlaneNormal ⟨1, 0, 0⟩ ⟨-1, 0, 0⟩ = ⟨0, 0, 1⟩ := by
    simp only [anglePlaneNormal]
    rw [hcross0, hls0, if_pos (by norm_num : (0 : ℝ) < 0.0001), hn1, hdx]
    rw [if_pos (by rw [abs_one]; norm_num : |(1 : ℝ)| > 0.999), hcx]
    exact rnormalize_of_rlen_one _ hlen001
  have hcy : rcross ⟨0, 0, 1⟩ ⟨1, 0, 0⟩ = ⟨0, 1, 0⟩ := by rw [rcross]; norm_num
  have hyaxis : rnormalize (rcross (anglePlaneNormal ((⟨1, 0, 0⟩ : Vec3R) - ⟨0, 0, 0⟩)
      ((⟨-1, 0, 0⟩ : Vec3R) - ⟨0, 0, 0⟩)) (rnormalize ((⟨1, 0, 0⟩ : Vec3R) - ⟨0, 0, 0⟩))) =
      ⟨0, 1, 0⟩ := by
    rw [hv1, hv2, hnormal, hn1, hcy]
    exact rnormalize_of_rlen_one _ hlen010
  have hang' : angleTo ((⟨1, 0, 0⟩ : Vec3R) - ⟨0, 0, 0⟩) ((⟨-1, 0, 0⟩ : Vec3R) - ⟨0, 0, 0⟩) =
      Real.pi := by rw [hv1, hv2, hang]
  have hnot : ¬ (angleTo ((⟨1, 0, 0⟩ : Vec3R) - ⟨0, 0, 0⟩)
      ((⟨-1, 0, 0⟩ : Vec3R) - ⟨0, 0, 0⟩) < 0.01) := by
    rw [hang']
    have hpi := Real.pi_gt_three
    norm_num
    linarith
  have hsum : rnormalize ((⟨1, 0, 0⟩ : Vec3R) - ⟨0, 0, 0⟩) +
      rnormalize ((⟨-1, 0, 0⟩ : Vec3R) - ⟨0, 0, 0⟩) = ⟨0, 0, 0⟩ := by
    rw [hv1, hv2, hn1, hn2, Vec3R.mk_add]
    norm_num
  have hlabel : ((⟨0, 0, 0⟩ : Vec3R) + ((0.4 * CHEM_MODEL_SCALE_R + 0.15) * 1.5) •
      rnormalize (if rlengthSq (rnormalize ((⟨1, 0, 0⟩ : Vec3R) - ⟨0, 0, 0⟩) +
          rnormalize ((⟨-1, 0, 0⟩ : Vec3R) - ⟨0, 0, 0⟩)) < 0.0001
        then rnormalize (rcross (anglePlaneNormal ((⟨1, 0, 0⟩ : Vec3R) - ⟨0, 0, 0⟩)
          ((⟨-1, 0, 0⟩ : Vec3R) - ⟨0, 0, 0⟩)) (rnormalize ((⟨1, 0, 0⟩ : Vec3R) - ⟨0, 0, 0⟩)))
        else rnormalize ((⟨1, 0, 0⟩ : Vec3R) - ⟨0, 0, 0⟩) +
          rnormalize ((⟨-1, 0, 0⟩ : Vec3R) - ⟨0, 0, 0⟩))) = ⟨0, 2.025, 0⟩ := by
    rw [hsum, hls0, if_pos (by norm_num : (0 : ℝ) < 0.0001), hyaxis]
    rw [rnormalize_of_rlen_one _ hlen010, CHEM_MODEL_SCALE_R, Vec3R.mk_smul, Vec3R.mk_add]
    norm_num
  rw [drawAngleVisualization_spec _ _ _ _ hnot]
  refine ⟨_, rfl, hang', ?_, hyaxis, rfl, hlabel, ?_⟩
  · show (0 : ℝ) < angleTo ((⟨1, 0, 0⟩ : Vec3R) - ⟨0, 0, 0⟩) ((⟨-1, 0, 0⟩ : Vec3R) - ⟨0, 0, 0⟩)
    rw [hang']
    exact Real.pi_pos
  · show _ = (⟨0, 0, 0⟩ : Vec3R) + (2.025 : ℝ) • rnormalize (rcross
      (anglePlaneNormal ((⟨1, 0, 0⟩ : Vec3R) - ⟨0, 0, 0⟩) ((⟨-1, 0, 0⟩ : Vec3R) - ⟨0, 0, 0⟩))
      (rnormalize ((⟨1, 0, 0⟩ : Vec3R) - ⟨0, 0, 0⟩)))
    rw [hlabel, hyaxis, Vec3R.mk_smul, Vec3R.mk_add]
    norm_num

theorem rlen_smul (c : ℝ) (v : Vec3R) : rlen (c • v) = |c| * rlen v := by
  cases v with
  | mk x y z =>
      rw [Vec3R.mk_smul, rlen, rlen, rlengthSq, rlengthSq]
      have h : c * x * (c * x) + c * y * (c * y) + c * z * (c * z) =
          c ^ 2 * (x * x + y * y + z * z) := by ring
      rw [h, Real.sqrt_mul (sq_nonneg c), Real.sqrt_sq_eq_abs]

theorem rlen_eq_zero_iff (v : Vec3R) : rlen v = 0 ↔ v = 0 := by
  cases v with
  | mk x y z =>
      constructor
      · intro h
        rw [rlen, rlengthSq] at h
        have hnn : (0 : ℝ) ≤ x * x + y * y + z * z := by
          nlinarith [mul_self_nonneg x, mul_self_nonneg y, mul_self_nonneg z]
        have hle := Real.sqrt_eq_zero'.mp h
        have hsum : x * x + y * y + z * z = 0 := le_antisymm hle hnn
        have hx : x = 0 := by nlinarith [mul_self_nonneg x, mul_self_nonneg y, mul_self_nonneg z]
        have hy : y = 0 := by nlinarith [mul_self_nonneg x, mul_self_nonneg y, mul_self_nonneg z]
        have hz : z = 0 := by nlinarith [mul_self_nonneg x, mul_self_nonneg y, mul_self_nonneg z]
        rw [Vec3R.zero_def, hx, hy, hz]
      · intro h
        rw [h]
        exact rlen_zero

theorem rlen_rnormalize_of_ne_zero (v : Vec3R) (h : v ≠ 0) : rlen (rnormalize v) = 1 := by
  have hne : rlen v ≠ 0 := fun hc => h ((rlen_eq_zero_iff v).mp hc)
  have hpos : 0 < rlen v := lt_of_le_of_ne (Real.sqrt_nonneg _) (Ne.symm hne)
  rw [rnormalize, if_neg hne, rlen_smul, abs_of_pos (by positivity : (0 : ℝ) < 1 / rlen v)]
  field_simp

theorem createBond_offsets_double (b : JBond) (s e : Vec3R) (nm : String)
    (h2 : toLowerStr b.type = "double") :
    (createBond b s e nm).cylinders.map CylinderPrim.offset =
      [(0.05 * CHEM_MODEL_SCALE_R * 1.5) • rnormalize (bondOffsetSeed s e),
       -((0.05 * CHEM_MODEL_SCALE_R * 1.5) • rnormalize (bondOffsetSeed s e))] := by
  have hn : bondCylinderCountOf b.type = 2 := by rw [bondCylinderCountOf, if_pos h2]
  simp [createBond, hn]

theorem createBond_offsets_triple (b : JBond) (s e : Vec3R) (nm : String)
    (h3 : toLowerStr b.type = "triple") (hne : toLowerStr b.type ≠ "double") :
    (createBond b s e nm).cylinders.map CylinderPrim.offset =
      [0, (0.05 * CHEM_MODEL_SCALE_R * 1.5) • rnormalize (bondOffsetSeed s e),
       -((0.05 * CHEM_MODEL_SCALE_R * 1.5) • rnormalize (bondOffsetSeed s e))] := by
  have hn : bondCylinderCountOf b.type = 3 := by
    rw [bondCylinderCountOf, if_neg hne, if_pos h3]
  simp [createBond, hn]

/-- Claim C6 counterexample: a bond of type double whose two endpoint
positions coincide produces its 2 cylinders with ZERO lateral offset
from the bond axis (the offset seed degenerates to the zero vector, and
three.js normalize leaves the zero vector unchanged), so the claim's
"equal, non-zero lateral distance" fails for this double bond. -/
theorem claim_C6_counterexample :
    (createBond { type := "double", energy := "614 kJ/mol", start := 0, endIdx := 1 }
        ⟨0, 0, 0⟩ ⟨0, 0, 0⟩ "C-C").cylinders.map CylinderPrim.offset = [0, 0] ∧
    ∀ cyl ∈ (createBond { type := "double", energy := "614 kJ/mol", start := 0, endIdx := 1 }
        ⟨0, 0, 0⟩ ⟨0, 0, 0⟩ "C-C").cylinders, rlen cyl.offset = 0 := by
  have hpath : ((⟨0, 0, 0⟩ : Vec3R) - ⟨0, 0, 0⟩) = 0 := Vec3R.sub_self _
  have hc1 : rcross 0 ⟨0, 1, 0⟩ = 0 := by
    rw [Vec3R.zero_def, rcross]
    norm_num
  have hc2 : rcross 0 ⟨1, 0, 0⟩ = 0 := by
    rw [Vec3R.zero_def, rcross]
    norm_num
  have hseed : bondOffsetSeed ⟨0, 0, 0⟩ ⟨0, 0, 0⟩ = 0 := by
    simp only [bondOffsetSeed, hpath, hc1, rlen_zero]
    rw [if_pos (by norm_num : (0 : ℝ) < 0.01)]
    exact hc2
  have hzero : (0.05 * CHEM_MODEL_SCALE_R * 1.5) • rnormalize
      (bondOffsetSeed ⟨0, 0, 0⟩ ⟨0, 0, 0⟩) = 0 := by
    rw [hseed, rnormalize_zero, Vec3R.zero_def, Vec3R.mk_smul]
    norm_num
  have hmap := createBond_offsets_double
    { type := "double", energy := "614 kJ/mol", start := 0, endIdx := 1 }
    ⟨0, 0, 0⟩ ⟨0, 0, 0⟩ "C-C" (by decide)
  rw [hzero] at hmap
  have hmap' : (createBond { type := "double", energy := "614 kJ/mol", start := 0, endIdx := 1 }
      ⟨0, 0, 0⟩ ⟨0, 0, 0⟩ "C-C").cylinders.map CylinderPrim.offset = [0, 0] := by
    rw [hmap]
    norm_num
    rw [Vec3R.zero_def, Vec3R.mk_neg]
    norm_num
  refine ⟨hmap', ?_⟩
  intro cyl hcyl
  have : cyl.offset ∈ [(0 : Vec3R), 0] := by
    rw [← hmap']
    exact List.mem_map_of_mem _ hcyl
  have hoff : cyl.offset = 0 := by
    rcases List.mem_cons.mp this with h | h
    · exact h
    · simpa using h
  rw [hoff]
  exact rlen_zero

/-- Claim C6 amended: for every bond of type double (after lowercasing)
whose offset seed — the cross product of the bond path with the Y axis,
or with the X axis when the former is shorter than 0.01 — is non-zero,
the builder produces exactly 2 cylinders at lateral offsets u and -u
with the equal non-zero distance ‖u‖ = 0.225 from the bond axis; for
type triple it produces exactly 3 cylinders, one on the axis and two at
u and -u.  (When the seed degenerates to the zero vector — coincident
or near-degenerate endpoints — the lateral distance is 0, as the
counterexample shows.) -/
theorem claim_C6_amended (b : JBond) (s e : Vec3R) (nm : String)
    (hseed : bondOffsetSeed s e ≠ 0) :
    (toLowerStr b.type = "double" →
      ∃ u : Vec3R, rlen u = 0.225 ∧ u ≠ 0 ∧
        (createBond b s e nm).cylinders.map CylinderPrim.offset = [u, -u]) ∧
    (toLowerStr b.type = "triple" →
      ∃ u : Vec3R, rlen u = 0.225 ∧ u ≠ 0 ∧
        (createBond b s e nm).cylinders.map CylinderPrim.offset = [0, u, -u]) := by
  have hu : rlen ((0.05 * CHEM_MODEL_SCALE_R * 1.5) • rnormalize (bondOffsetSeed s e)) =
      0.225 := by
    rw [rlen_smul, rlen_rnormalize_of_ne_zero _ hseed, mul_one, CHEM_MODEL_SCALE_R]
    rw [abs_of_pos (by norm_num : (0 : ℝ) < 0.05 * 3 * 1.5)]
    norm_num
  have hune : (0.05 * CHEM_MODEL_SCALE_R * 1.5) • rnormalize (bondOffsetSeed s e) ≠ 0 := by
    intro hc
    have := (rlen_eq_zero_iff _).mpr hc
    rw [hu] at this
    norm_num at this
  constructor
  · intro h2
    exact ⟨_, hu, hune, createBond_offsets_double b s e nm h2⟩
  · intro h3
    have hne : toLowerStr b.type ≠ "double" := by
      rw [h3]
      decide
    exact ⟨_, hu, hune, createBond_offsets_triple b s e nm h3 hne⟩

/-- Claim C6 witness: a double bond along the Z axis of length 5 has a
non-degenerate offset seed, and its two cylinders are offset by u and
-u with ‖u‖ = 0.225. -/
theorem claim_C6_witness :
    bondOffsetSeed (⟨0, 0, 0⟩ : Vec3R) ⟨0, 0, 5⟩ ≠ 0 ∧
    ∃ u : Vec3R, rlen u = 0.225 ∧ u ≠ 0 ∧
      (createBond { type := "double", energy := "614 kJ/mol", start := 0, endIdx := 1 }
          ⟨0, 0, 0⟩ ⟨0, 0, 5⟩ "C-C").cylinders.map CylinderPrim.offset = [u, -u] := by
  have hpath : ((⟨0, 0, 5⟩ : Vec3R) - ⟨0, 0, 0⟩) = ⟨0, 0, 5⟩ := by
    rw [Vec3R.mk_sub]
    norm_num
  have hcy : rcross ⟨0, 0, 5⟩ ⟨0, 1, 0⟩ = ⟨-5, 0, 0⟩ := by
    rw [rcross]
    norm_num
  have hl5 : rlen ⟨-5, 0, 0⟩ = 5 := by
    rw [rlen]
    have : rlengthSq ⟨-5, 0, 0⟩ = 25 := by rw [rlengthSq]; norm_num
    rw [this, show (25 : ℝ) = 5 ^ 2 by norm_num, Real.sqrt_sq (by norm_num : (0 : ℝ) ≤ 5)]
  have hseed : bondOffsetSeed (⟨0, 0, 0⟩ : Vec3R) ⟨0, 0, 5⟩ = ⟨-5, 0, 0⟩ := by
    simp only [bondOffsetSeed, hpath, hcy, hl5]
    rw [if_neg (by norm_num : ¬ ((5 : ℝ) < 0.01))]
  have hne : bondOffsetSeed (⟨0, 0, 0⟩ : Vec3R) ⟨0, 0, 5⟩ ≠ 0 := by
    rw [hseed, Vec3R.zero_def]
    intro hc
    have := congrArg Vec3R.x hc
    norm_num at this
  exact ⟨hne,
    (claim_C6_amended { type := "double", energy := "614 kJ/mol", start := 0, endIdx := 1 }
      ⟨0, 0, 0⟩ ⟨0, 0, 5⟩ "C-C" hne).1 (by decide)⟩

/-- Box evaluation for dA: the model's points span 8 x 1 x 0. -/
theorem dA_box : boxOfPoints (meshPoints (geomMeshesFrom
    [.arr [.fin 0, .fin 0, .fin 0], .arr [.fin 8, .fin 0, .fin 0],
     .arr [.fin 0, .fin 1, .fin 0]] 0
    [{ details := { surfaceArea := "4 cm^2", perimeter := "17.06 cm" },
       triangles := some [⟨some [0, 1, 2]⟩] }]) ++
    (geomSprites meas90 (dA.labels.getD [])).flatMap spriteCorners) =
    some { minX := 0, maxX := 8, minY := 0, maxY := 1, minZ := 0, maxZ := 0 } := by
  have hpts : meshPoints (geomMeshesFrom
      [.arr [.fin 0, .fin 0, .fin 0], .arr [.fin 8, .fin 0, .fin 0],
       .arr [.fin 0, .fin 1, .fin 0]] 0
      [{ details := { surfaceArea := "4 cm^2", perimeter := "17.06 cm" },
         triangles := some [⟨some [0, 1, 2]⟩] }]) =
      [⟨0, 0, 0⟩, ⟨8, 0, 0⟩, ⟨0, 1, 0⟩] := rfl
  have hspr : geomSprites meas90 (dA.labels.getD []) =
      [{ pos := ⟨4, 1 / 2, 0⟩, scaleX := 90 / 90, scaleY := 1, scaleZ := 1 }] := rfl
  have hcor : ([{ pos := ⟨4, 1 / 2, 0⟩, scaleX := 90 / 90, scaleY := 1, scaleZ := 1 }] :
      List SpriteData).flatMap spriteCorners =
      [⟨7 / 2, 0, 0⟩, ⟨9 / 2, 0, 0⟩, ⟨9 / 2, 1, 0⟩, ⟨7 / 2, 1, 0⟩] := by
    simp [spriteCorners]
    norm_num
  rw [hpts, hspr, hcor]
  norm_num [boxOfPoints, BoxQ.expand]

/-- Box evaluation for dB: the model's points span 7 x 4 x 0. -/
theorem dB_box : boxOfPoints (meshPoints (geomMeshesFrom
    [.arr [.fin 0, .fin 0, .fin 0], .arr [.fin 7, .fin 0, .fin 0],
     .arr [.fin 0, .fin 4, .fin 0]] 0
    [{ details := { surfaceArea := "14 cm^2", perimeter := "19.06 cm" },
       triangles := some [⟨some [0, 1, 2]⟩] }]) ++
    (geomSprites meas90 (dB.labels.getD [])).flatMap spriteCorners) =
    some { minX := 0, maxX := 7, minY := 0, maxY := 4, minZ := 0, maxZ := 0 } := by
  have hpts : meshPoints (geomMeshesFrom
      [.arr [.fin 0, .fin 0, .fin 0], .arr [.fin 7, .fin 0, .fin 0],
       .arr [.fin 0, .fin 4, .fin 0]] 0
      [{ details := { surfaceArea := "14 cm^2", perimeter := "19.06 cm" },
         triangles := some [⟨some [0, 1, 2]⟩] }]) =
      [⟨0, 0, 0⟩, ⟨7, 0, 0⟩, ⟨0, 4, 0⟩] := rfl
  have hspr : geomSprites meas90 (dB.labels.getD []) =
      [{ pos := ⟨7 / 2, 2, 0⟩, scaleX := 90 / 90, scaleY := 1, scaleZ := 1 }] := rfl
  have hcor : ([{ pos := ⟨7 / 2, 2, 0⟩, scaleX := 90 / 90, scaleY := 1, scaleZ := 1 }] :
      List SpriteData).flatMap spriteCorners =
      [⟨3, 3 / 2, 0⟩, ⟨4, 3 / 2, 0⟩, ⟨4, 5 / 2, 0⟩, ⟨3, 5 / 2, 0⟩] := by
    simp [spriteCorners]
    norm_num
  rw [hpts, hspr, hcor]
  norm_num [boxOfPoints, BoxQ.expand]

/-- Claim C9 counterexample: the two solids dA and dB have bounding
boxes with the SAME diagonal (squared diagonal 65), yet their label
sprites are multiplied by DIFFERENT factors (8/15 and 7/15): the factor
is maxDim / 15, where maxDim is the largest box dimension (8 and 7
here), so no single constant c makes the factor c times the diagonal —
the claimed proportionality to the bounding-box diagonal is false. -/
theorem claim_C9_counterexample :
    geomDiagSqOf meas90 dA = 65 ∧ geomDiagSqOf meas90 dB = 65 ∧
    geomLabelFactorOf meas90 dA = 8 / 15 ∧ geomLabelFactorOf meas90 dB = 7 / 15 ∧
    (∃ gmA, buildGeometryModel meas90 dA = .ok gmA ∧
       gmA.sprites = (geomSprites meas90 (dA.labels.getD [])).map
         (scaleSprite (geomLabelFactorOf meas90 dA))) ∧
    (∃ gmB, buildGeometryModel meas90 dB = .ok gmB ∧
       gmB.sprites = (geomSprites meas90 (dB.labels.getD [])).map
         (scaleSprite (geomLabelFactorOf meas90 dB))) ∧
    ¬ ∃ c : ℝ,
        ((geomLabelFactorOf meas90 dA : ℝ) = c * Real.sqrt (geomDiagSqOf meas90 dA)) ∧
        ((geomLabelFactorOf meas90 dB : ℝ) = c * Real.sqrt (geomDiagSqOf meas90 dB)) := by
  have hdA : geomDiagSqOf meas90 dA = 65 := by
    show (match boxOfPoints (meshPoints (geomMeshesFrom
        [.arr [.fin 0, .fin 0, .fin 0], .arr [.fin 8, .fin 0, .fin 0],
         .arr [.fin 0, .fin 1, .fin 0]] 0
        [{ details := { surfaceArea := "4 cm^2", perimeter := "17.06 cm" },
           triangles := some [⟨some [0, 1, 2]⟩] }]) ++
        (geomSprites meas90 (dA.labels.getD [])).flatMap spriteCorners) with
      | some b => boxDiagSq b
      | none => (0 : ℚ)) = (65 : ℚ)
    rw [dA_box]
    norm_num [boxDiagSq, boxSize]
  have hdB : geomDiagSqOf meas90 dB = 65 := by
    show (match boxOfPoints (meshPoints (geomMeshesFrom
        [.arr [.fin 0, .fin 0, .fin 0], .arr [.fin 7, .fin 0, .fin 0],
         .arr [.fin 0, .fin 4, .fin 0]] 0
        [{ details := { surfaceArea := "14 cm^2", perimeter := "19.06 cm" },
           triangles := some [⟨some [0, 1, 2]⟩] }]) ++
        (geomSprites meas90 (dB.labels.getD [])).flatMap spriteCorners) with
      | some b => boxDiagSq b
      | none => (0 : ℚ)) = (65 : ℚ)
    rw [dB_box]
    norm_num [boxDiagSq, boxSize]
  have hfA : geomLabelFactorOf meas90 dA = 8 / 15 := by
    show geomLabelFactor (geomMeshesFrom
        [.arr [.fin 0, .fin 0, .fin 0], .arr [.fin 8, .fin 0, .fin 0],
         .arr [.fin 0, .fin 1, .fin 0]] 0
        [{ details := { surfaceArea := "4 cm^2", perimeter := "17.06 cm" },
           triangles := some [⟨some [0, 1, 2]⟩] }])
        (geomSprites meas90 (dA.labels.getD [])) = 8 / 15
    rw [geomLabelFactor, geomMaxDimOf, dA_box]
    norm_num [boxMaxDim, boxSize, GEOM_LABEL_DIVISOR]
  have hfB : geomLabelFactorOf meas90 dB = 7 / 15 := by
    show geomLabelFactor (geomMeshesFrom
        [.arr [.fin 0, .fin 0, .fin 0], .arr [.fin 7, .fin 0, .fin 0],
         .arr [.fin 0, .fin 4, .fin 0]] 0
        [{ details := { surfaceArea := "14 cm^2", perimeter := "19.06 cm" },
           triangles := some [⟨some [0, 1, 2]⟩] }])
        (geomSprites meas90 (dB.labels.getD [])) = 7 / 15
    rw [geomLabelFactor, geomMaxDimOf, dB_box]
    norm_num [boxMaxDim, boxSize, GEOM_LABEL_DIVISOR]
  refine ⟨hdA, hdB, hfA, hfB, ⟨_, rfl, rfl⟩, ⟨_, rfl, rfl⟩, ?_⟩
  rintro ⟨c, h1, h2⟩
  rw [hdA, hfA] at h1
  rw [hdB, hfB] at h2
  rw [← h1] at h2
  have hne : ((8 / 15 : ℚ) : ℝ) ≠ ((7 / 15 : ℚ) : ℝ) := by
    push_cast
    norm_num
  exact hne (by rw [h2])

/-- Claim C9 amended: after a successful build, every label sprite's
scale is multiplied by maxDim divided by a per-variant divisor
constant, where maxDim is the LARGEST DIMENSION of the model's bounding
box (not its diagonal), and only when maxDim exceeds 0.001; the
molecule variant's divisor (30) is larger than the solid variant's
(15).  The molecule statement is made for bond-free models, where the
exact bounding box is rational (a tessellated cylinder's box under an
arbitrary bond rotation is irrational). -/
theorem claim_C9_amended :
    (∀ (meas : String → ℚ) (d : GeomData) (gm : GeomModel) (vs : List JVertex)
       (fs : List JFaceGroup) (md : ℚ),
       buildGeometryModel meas d = .ok gm →
       d.vertices = some vs → d.faces = some fs →
       geomMaxDimOf (geomMeshesFrom vs 0 fs) (geomSprites meas (d.labels.getD [])) = some md →
       1 / 1000 < md →
       gm.sprites = (geomSprites meas (d.labels.getD [])).map
         (scaleSprite (md / GEOM_LABEL_DIVISOR))) ∧
    (∀ (meas : String → ℚ) (d : ChemData) (cm : ChemModel) (md : ℚ),
       buildChemistryModel meas d = .ok cm → cm.bonds = [] →
       chemMaxDimNoBonds cm = some md → 1 / 1000 < md →
       chemScaledLabels cm = cm.atoms.map fun a =>
         scaleSprite (md / CHEM_LABEL_DIVISOR) a.labelSprite) ∧
    GEOM_LABEL_DIVISOR < CHEM_LABEL_DIVISOR := by
  refine ⟨?_, ?_, by rw [GEOM_LABEL_DIVISOR, CHEM_LABEL_DIVISOR]; norm_num⟩
  · intro meas d gm vs fs md hok hv hf hmax hgt
    simp only [buildGeometryModel, hv, hf] at hok
    by_cases he1 : vs.isEmpty
    · rw [if_pos he1] at hok; exact Except.noConfusion hok
    · rw [if_neg he1] at hok
      by_cases he2 : fs.isEmpty
      · rw [if_pos he2] at hok; exact Except.noConfusion hok
      · rw [if_neg he2] at hok
        by_cases he3 : (geomMeshesFrom vs 0 fs).isEmpty
        · rw [if_pos he3] at hok; exact Except.noConfusion hok
        · rw [if_neg he3] at hok
          have hs : gm.sprites = (geomSprites meas (d.labels.getD [])).map
              (scaleSprite (geomLabelFactor (geomMeshesFrom vs 0 fs)
                (geomSprites meas (d.labels.getD [])))) := by
            cases hok
            rfl
          have hfac : geomLabelFactor (geomMeshesFrom vs 0 fs)
              (geomSprites meas (d.labels.getD [])) = md / GEOM_LABEL_DIVISOR := by
            simp only [geomLabelFactor, hmax]
            rw [if_pos hgt]
          rw [hs, hfac]
  · intro meas d cm md _hok _hb hmax hgt
    have hfac : chemLabelFactorNoBonds cm = md / CHEM_LABEL_DIVISOR := by
      simp only [chemLabelFactorNoBonds, hmax]
      rw [if_pos hgt]
    rw [chemScaledLabels, hfac]

/-- Claim C9 witness: the maxDim-based rescale evaluated on the solid
dA (maxDim 8, factor 8/15) and on the bond-free molecule dMolNB
(maxDim 27/8, factor (27/8)/30). -/
theorem claim_C9_witness :
    (buildGeometryModel meas90 dA = .ok gmABuilt ∧
     geomMaxDimOf (geomMeshesFrom
       [.arr [.fin 0, .fin 0, .fin 0], .arr [.fin 8, .fin 0, .fin 0],
        .arr [.fin 0, .fin 1, .fin 0]] 0
       [{ details := { surfaceArea := "4 cm^2", perimeter := "17.06 cm" },
          triangles := some [⟨some [0, 1, 2]⟩] }])
       (geomSprites meas90 (dA.labels.getD [])) = some 8 ∧
     (1 : ℚ) / 1000 < 8 ∧
     gmABuilt.sprites = (geomSprites meas90 (dA.labels.getD [])).map
       (scaleSprite (8 / GEOM_LABEL_DIVISOR))) ∧
    (buildChemistryModel meas90 dMolNB = .ok cmMolNB ∧
     cmMolNB.bonds = [] ∧
     chemMaxDimNoBonds cmMolNB = some (27 / 8) ∧
     (1 : ℚ) / 1000 < 27 / 8 ∧
     chemScaledLabels cmMolNB = cmMolNB.atoms.map fun a =>
       scaleSprite ((27 / 8) / CHEM_LABEL_DIVISOR) a.labelSprite) ∧
    GEOM_LABEL_DIVISOR < CHEM_LABEL_DIVISOR := by
  have hmaxA : geomMaxDimOf (geomMeshesFrom
      [.arr [.fin 0, .fin 0, .fin 0], .arr [.fin 8, .fin 0, .fin 0],
       .arr [.fin 0, .fin 1, .fin 0]] 0
      [{ details := { surfaceArea := "4 cm^2", perimeter := "17.06 cm" },
         triangles := some [⟨some [0, 1, 2]⟩] }])
      (geomSprites meas90 (dA.labels.getD [])) = some 8 := by
    rw [geomMaxDimOf, dA_box]
    norm_num [boxMaxDim, boxSize]
  have hatoms : cmMolNB.atoms =
      [{ details := { element := "O", bondAngles := some [], vseprShape := "Bent",
                      atomIndex := 0 },
         pos := ⟨0, 0, 0⟩, radius := 9 / 10, color := 0xff0000,
         labelSprite := { pos := ⟨0, 27 / 20, 0⟩, scaleX := 9 / 4, scaleY := 9 / 4,
                          scaleZ := 9 / 4 } }] := by
    have h0 : cmMolNB.atoms = [createAtom meas90
        { element := "O", position := some ⟨0, 0, 0⟩, vseprShape := "Bent",
          bondAngles := some [] } (Vec3Q.scale CHEM_MODEL_SCALE ⟨0, 0, 0⟩) 0] := rfl
    have hup : toUpperStr "O" = "O" := by decide
    have hrad : atomRadiusOf "O" = 0.3 * CHEM_MODEL_SCALE := rfl
    have hcol : cpkColor "O" = 0xff0000 := rfl
    rw [h0]
    simp only [createAtom, hup, hrad, hcol]
    rw [CHEM_MODEL_SCALE, LABEL_FONT_SIZE]
    simp only [meas90, Vec3Q.scale]
    norm_num
  have hpts : chemBoxPointsNoBonds cmMolNB =
      [⟨-(9 / 10), 0, 0⟩, ⟨9 / 10, 0, 0⟩, ⟨0, -(9 / 10), 0⟩, ⟨0, 9 / 10, 0⟩,
       ⟨0, 0, -(9 / 10)⟩, ⟨0, 0, 9 / 10⟩,
       ⟨-(9 / 8), 9 / 40, 0⟩, ⟨9 / 8, 9 / 40, 0⟩, ⟨9 / 8, 99 / 40, 0⟩,
       ⟨-(9 / 8), 99 / 40, 0⟩] := by
    rw [chemBoxPointsNoBonds, hatoms]
    simp only [List.flatMap_cons, List.flatMap_nil, List.append_nil, sphereBoxPoints,
      spriteCorners]
    norm_num
  have hbox : chemMaxDimNoBonds cmMolNB = some (27 / 8) := by
    rw [chemMaxDimNoBonds, hpts]
    norm_num [boxOfPoints, BoxQ.expand, boxMaxDim, boxSize]
  refine ⟨⟨rfl, hmaxA, by norm_num,
      claim_C9_amended.1 meas90 dA gmABuilt _ _ 8 rfl rfl rfl hmaxA (by norm_num)⟩,
    ⟨rfl, rfl, hbox, by norm_num,
      claim_C9_amended.2.1 meas90 dMolNB cmMolNB (27 / 8) rfl rfl hbox (by norm_num)⟩,
    claim_C9_amended.2.2⟩
